import Mathlib

/-!
# Verification of the DLC sub-channel message layer

Shallow embedding of `dlc-messages/src/sub_channel.rs`: the nine sub-channel
wire messages, their binary codec (field order taken from the
`impl_dlc_writeable!` invocations in the source), the message envelope and
the negotiation state machine described by the specification.

Field-level serialization primitives (the expansion of `impl_dlc_writeable!`
and the lightning `Writeable`/`Readable` instances) are not part of the
repository sources; they are modelled from the specification (sections 4.1
and 6): fixed-size cryptographic values, big-endian fixed-width integers,
and count/length-prefixed variable-size values.
-/

set_option maxRecDepth 40000

/-- Byte sequences are lists of naturals; well-formedness predicates require
each entry to be below 256. -/
abbrev Bytes := List Nat

/-- Decoding error kinds, mirroring the error taxonomy of the spec (section 7)
and the `DecodeError` type the source imports from lightning: truncated input,
invalid value, and unknown envelope message type. -/
inductive DecodeError where
  | shortRead
  | invalidValue
  | unknownMessageType
  deriving DecidableEq, Repr

/-- Result of decoding: the value together with the remaining bytes. -/
abbrev DecResult (α : Type) := Except DecodeError (α × Bytes)

/-- A decoder consumes a byte stream and yields a value plus the rest. -/
abbrev Decoder (α : Type) := Bytes → DecResult α

/-- Modelled from the spec: sequential composition of decoders; decode reads
fields in order, propagating the first field failure (section 4.2). -/
def andThen {α β : Type} (d : Decoder α) (f : α → Decoder β) : Decoder β := fun l =>
  match d l with
  | .error e => .error e
  | .ok (v, r) => f v r

/-- Modelled from the spec: reading a fixed number of raw bytes; insufficient
bytes for a fixed-size field is a truncation error (sections 4.1 and 7). -/
def readBytes : Nat → Decoder Bytes
  | 0 => fun l => .ok ([], l)
  | w + 1 => fun l =>
    match l with
    | [] => .error .shortRead
    | b :: l' =>
      match readBytes w l' with
      | .error e => .error e
      | .ok (bs, r) => .ok (b :: bs, r)

/-- Modelled from the spec: fixed-width big-endian encoding of an unsigned
integer (section 6: amounts 8 bytes, lock times 4 bytes, serial ids 8 bytes;
length/count framing uses the same shape). -/
def natToBE : Nat → Nat → Bytes
  | 0, _ => []
  | w + 1, n => (n / 256 ^ w) % 256 :: natToBE w n

/-- Big-endian accumulation of a byte sequence into a natural number. -/
def beValAux : Nat → Bytes → Nat
  | acc, [] => acc
  | acc, b :: l => beValAux (acc * 256 + b) l

/-- Value of a big-endian byte sequence. -/
def beVal (l : Bytes) : Nat := beValAux 0 l

/-- Modelled from the spec: decoding a fixed-width big-endian unsigned
integer. -/
def readUInt (w : Nat) : Decoder Nat :=
  andThen (readBytes w) fun bs => fun l => .ok (beVal bs, l)

theorem andThen_ok {α β : Type} {d : Decoder α} {f : α → Decoder β} {l : Bytes}
    {v : α} {r : Bytes} (h : d l = .ok (v, r)) : andThen d f l = f v r := by
  simp [andThen, h]

theorem andThen_error {α β : Type} {d : Decoder α} {f : α → Decoder β} {l : Bytes}
    {e : DecodeError} (h : d l = .error e) : andThen d f l = .error e := by
  simp [andThen, h]

theorem readBytes_append (xs rest : Bytes) :
    readBytes xs.length (xs ++ rest) = .ok (xs, rest) := by
  induction xs with
  | nil => rfl
  | cons b xs ih => simp [readBytes, ih]

theorem readBytes_short : ∀ (w : Nat) (l : Bytes), l.length < w →
    readBytes w l = .error .shortRead := by
  intro w
  induction w with
  | zero => intro l h; exact absurd h (Nat.not_lt_zero _)
  | succ w ih =>
    intro l h
    match l with
    | [] => rfl
    | b :: l' =>
      have hl : l'.length < w := by simpa using h
      simp [readBytes, ih l' hl]

theorem natToBE_length (w n : Nat) : (natToBE w n).length = w := by
  induction w with
  | zero => rfl
  | succ w ih => simp [natToBE, ih]

theorem beValAux_natToBE (w n : Nat) : ∀ acc : Nat,
    beValAux acc (natToBE w n) = acc * 256 ^ w + n % 256 ^ w := by
  induction w with
  | zero => intro acc; simp [natToBE, beValAux, Nat.mod_one]
  | succ w ih =>
    intro acc
    simp only [natToBE, beValAux]
    rw [ih]
    have h256 : (256 : Nat) ^ (w + 1) = 256 ^ w * 256 := by ring
    rw [h256, Nat.mod_mul]
    ring

theorem beVal_natToBE {w n : Nat} (h : n < 256 ^ w) : beVal (natToBE w n) = n := by
  have hb := beValAux_natToBE w n 0
  simpa [beVal, Nat.mod_eq_of_lt h] using hb

theorem readUInt_rt {w n : Nat} (h : n < 256 ^ w) (rest : Bytes) :
    readUInt w (natToBE w n ++ rest) = .ok (n, rest) := by
  have h1 : readBytes w (natToBE w n ++ rest) = .ok (natToBE w n, rest) := by
    have hr := readBytes_append (natToBE w n) rest
    rwa [natToBE_length] at hr
  rw [readUInt, andThen_ok h1]
  simp [beVal_natToBE h]

theorem readUInt_short {w : Nat} {p : Bytes} (h : p.length < w) :
    readUInt w p = .error .shortRead :=
  andThen_error (readBytes_short w p h)

theorem pre_length_lt {p l : Bytes} (h : p <+: l) (hne : p ≠ l) :
    p.length < l.length := by
  rcases Nat.lt_or_ge p.length l.length with h1 | h1
  · exact h1
  · exact absurd (List.IsPrefix.eq_of_length h
      (Nat.le_antisymm (List.IsPrefix.length_le h) h1)) hne

theorem pre_split {p a b : Bytes} (h : p <+: a ++ b) :
    p <+: a ∨ ∃ q, p = a ++ q ∧ q <+: b := by
  by_cases hl : p.length ≤ a.length
  · left
    exact List.prefix_of_prefix_length_le h (List.prefix_append a b) hl
  · right
    have ha : a <+: p :=
      List.prefix_of_prefix_length_le (List.prefix_append a b) h (by omega)
    rcases ha with ⟨q, hq⟩
    refine ⟨q, hq.symm, ?_⟩
    rcases h with ⟨t, ht⟩
    rw [← hq, List.append_assoc] at ht
    exact ⟨t, List.append_cancel_left ht⟩

theorem andThen_short_last {α β : Type} {d : Decoder α} {f : α → Decoder β}
    {encF : Bytes}
    (hShort : ∀ p, p <+: encF → p ≠ encF → d p = .error .shortRead) :
    ∀ p, p <+: encF → p ≠ encF → andThen d f p = .error .shortRead :=
  fun p hp hne => andThen_error (hShort p hp hne)

theorem andThen_short_step {α β : Type} {d : Decoder α} {f : α → Decoder β}
    {encF restEnc : Bytes} {v : α}
    (hRT : ∀ rest, d (encF ++ rest) = .ok (v, rest))
    (hShort : ∀ p, p <+: encF → p ≠ encF → d p = .error .shortRead)
    (hne : restEnc ≠ [])
    (hk : ∀ q, q <+: restEnc → q ≠ restEnc → f v q = .error .shortRead) :
    ∀ p, p <+: encF ++ restEnc → p ≠ encF ++ restEnc →
      andThen d f p = .error .shortRead := by
  intro p hp hpne
  rcases pre_split hp with h | ⟨q, rfl, hq⟩
  · by_cases hpe : p = encF
    · subst hpe
      have h1 : d p = .ok (v, []) := by
        have hr := hRT []
        simpa using hr
      rw [andThen_ok h1]
      exact hk [] ⟨restEnc, rfl⟩ fun hc => hne hc.symm
    · exact andThen_error (hShort p h hpe)
  · have hqe : q ≠ restEnc := fun hc => hpne (by rw [hc])
    rw [andThen_ok (hRT q)]
    exact hk q hq hqe

theorem app_ne_nil {a b : Bytes} (h : a ≠ []) : a ++ b ≠ [] :=
  fun hc => h (List.append_eq_nil.mp hc).1

theorem natToBE_succ_ne_nil {w n : Nat} : natToBE (w + 1) n ≠ [] := by
  simp [natToBE]

theorem readUIntBE_short {w n : Nat} :
    ∀ p, p <+: natToBE w n → p ≠ natToBE w n → readUInt w p = .error .shortRead :=
  fun p hp hne => readUInt_short (by
    have hl := pre_length_lt hp hne
    rwa [natToBE_length] at hl)

theorem readChanId_rt {cid : Bytes} (h : cid.length = 32) (rest : Bytes) :
    readBytes 32 (cid ++ rest) = .ok (cid, rest) := by
  have hr := readBytes_append cid rest
  rwa [h] at hr

theorem readChanId_short {cid : Bytes} (h : cid.length = 32) :
    ∀ p, p <+: cid → p ≠ cid → readBytes 32 p = .error .shortRead :=
  fun p hp hne => readBytes_short 32 p (by
    have hl := pre_length_lt hp hne
    rwa [h] at hl)

/-- Modelled from the spec: decoding a fixed-size value and wrapping it in its
semantic type (section 4.1: keys, secrets, signatures have fixed widths). -/
def readWrapped {α : Type} (w : Nat) (mk : Bytes → α) : Decoder α :=
  andThen (readBytes w) fun bs => fun l => .ok (mk bs, l)

theorem readWrapped_rt {α : Type} {w : Nat} {mk : Bytes → α} {bs : Bytes}
    (h : bs.length = w) (rest : Bytes) :
    readWrapped w mk (bs ++ rest) = .ok (mk bs, rest) := by
  have hr : readBytes w (bs ++ rest) = .ok (bs, rest) := by
    have ha := readBytes_append bs rest
    rwa [h] at ha
  rw [readWrapped, andThen_ok hr]

theorem readWrapped_short {α : Type} {w : Nat} {mk : Bytes → α} {p : Bytes}
    (h : p.length < w) : readWrapped w mk p = .error .shortRead :=
  andThen_error (readBytes_short w p h)

/-- Modelled from the spec: decoding a fixed number of fixed-size chunks
(the element part of a count-prefixed list, section 4.1). -/
def readChunks (w : Nat) : Nat → Decoder (List Bytes)
  | 0 => fun l => .ok ([], l)
  | n + 1 =>
    andThen (readBytes w) fun bs =>
      andThen (readChunks w n) fun rest => fun l => .ok (bs :: rest, l)

theorem readChunks_rt {w : Nat} {cs : List Bytes} (h : ∀ c ∈ cs, c.length = w) :
    ∀ rest : Bytes, readChunks w cs.length (cs.join ++ rest) = .ok (cs, rest) := by
  induction cs with
  | nil => intro rest; simp [readChunks]
  | cons c cs ih =>
    intro rest
    have hc : c.length = w := h c (by simp)
    have hcs : ∀ x ∈ cs, x.length = w := fun x hx => h x (by simp [hx])
    have hr : readBytes w (c ++ (cs.join ++ rest)) = .ok (c, cs.join ++ rest) := by
      have ha := readBytes_append c (cs.join ++ rest)
      rwa [hc] at ha
    show readChunks w (cs.length + 1) ((c ++ cs.join) ++ rest) = .ok (c :: cs, rest)
    rw [List.append_assoc, readChunks, andThen_ok hr, andThen_ok (ih hcs rest)]

theorem readChunks_short {w : Nat} {cs : List Bytes} (h : ∀ c ∈ cs, c.length = w) :
    ∀ p, p <+: cs.join → p ≠ cs.join → readChunks w cs.length p = .error .shortRead := by
  induction cs with
  | nil =>
    intro p hp hne
    have h1 : p = [] := by simpa using hp
    have h2 : p ≠ [] := by simpa using hne
    exact absurd h1 h2
  | cons c cs ih =>
    have hc : c.length = w := h c (by simp)
    have hcs : ∀ x ∈ cs, x.length = w := fun x hx => h x (by simp [hx])
    intro p hp hpne
    have hshort : ∀ q, q <+: c → q ≠ c → readBytes w q = .error .shortRead := by
      intro q hq hqe
      exact readBytes_short w q (by
        have hl := pre_length_lt hq hqe
        rwa [hc] at hl)
    show readChunks w (cs.length + 1) p = .error .shortRead
    rw [readChunks]
    by_cases hj : cs.join = []
    · have hjoin : (c :: cs).join = c := by simp [List.join, hj]
      rw [hjoin] at hp hpne
      exact andThen_short_last hshort p hp hpne
    · have hrt : ∀ rest, readBytes w (c ++ rest) = .ok (c, rest) := fun rest => by
        have ha := readBytes_append c rest
        rwa [hc] at ha
      have hp' : p <+: c ++ cs.join := hp
      have hpne' : p ≠ c ++ cs.join := hpne
      refine andThen_short_step hrt hshort hj ?_ p hp' hpne'
      intro q hq hqe
      exact andThen_error (ih hcs q hq hqe)

/-- Modelled from the spec: a variable-length list framed as a count followed
by that many fixed-size elements (section 4.1). -/
def writeVec {α : Type} (get : α → Bytes) (l : List α) : Bytes :=
  natToBE 2 l.length ++ (l.map get).join

/-- Modelled from the spec: decoding a count-prefixed list of fixed-size
elements. -/
def readVec {α : Type} (w : Nat) (mk : Bytes → α) : Decoder (List α) :=
  andThen (readUInt 2) fun n =>
    andThen (readChunks w n) fun cs => fun l => .ok (cs.map mk, l)

theorem map_mk_get {α : Type} {get : α → Bytes} {mk : Bytes → α}
    (hmk : ∀ a, mk (get a) = a) (l : List α) : (l.map get).map mk = l := by
  induction l with
  | nil => rfl
  | cons a l ih => simp [hmk, ih]

theorem readVec_rt {α : Type} {get : α → Bytes} {mk : Bytes → α} {w : Nat}
    (hmk : ∀ a, mk (get a) = a) {l : List α} (hlen : l.length < 256 ^ 2)
    (hw : ∀ a ∈ l, (get a).length = w) (rest : Bytes) :
    readVec w mk (writeVec get l ++ rest) = .ok (l, rest) := by
  have hcs : ∀ c ∈ l.map get, c.length = w := by
    intro c hc
    rcases List.mem_map.mp hc with ⟨a, ha, rfl⟩
    exact hw a ha
  have h2 : readChunks w l.length ((l.map get).join ++ rest) = .ok (l.map get, rest) := by
    have hr := readChunks_rt hcs rest
    rwa [List.length_map] at hr
  rw [readVec, writeVec, List.append_assoc, andThen_ok (readUInt_rt hlen _),
    andThen_ok h2]
  simp [map_mk_get hmk]

theorem readVec_short {α : Type} {get : α → Bytes} {mk : Bytes → α} {w : Nat}
    {l : List α} (hlen : l.length < 256 ^ 2) (hw : ∀ a ∈ l, (get a).length = w) :
    ∀ p, p <+: writeVec get l → p ≠ writeVec get l →
      readVec w mk p = .error .shortRead := by
  intro p hp hpne
  rw [writeVec] at hp hpne
  rw [readVec]
  have hcs : ∀ c ∈ l.map get, c.length = w := by
    intro c hc
    rcases List.mem_map.mp hc with ⟨a, ha, rfl⟩
    exact hw a ha
  by_cases hj : (l.map get).join = []
  · rw [hj, List.append_nil] at hp hpne
    exact andThen_short_last readUIntBE_short p hp hpne
  · refine andThen_short_step (readUInt_rt hlen) readUIntBE_short hj ?_ p hp hpne
    intro q hq hqe
    have hs := readChunks_short hcs q hq hqe
    rw [List.length_map] at hs
    exact andThen_error hs

theorem writeVec_ne_nil {α : Type} {get : α → Bytes} {l : List α} :
    writeVec get l ≠ [] := app_ne_nil natToBE_succ_ne_nil

/-- A compressed secp256k1 public key, kept as its 33-byte serialization
(the source stores `secp256k1_zkp::PublicKey` values). -/
structure PublicKey where
  bytes : Bytes
  deriving DecidableEq, Repr

/-- A public key is well formed when it is the 33-byte canonical compressed
form: the leading byte is 2 or 3 (section 4.1). -/
@[reducible] def PublicKey.wf (pk : PublicKey) : Prop :=
  pk.bytes.length = 33 ∧ (pk.bytes.head? = some 2 ∨ pk.bytes.head? = some 3) ∧
    ∀ b ∈ pk.bytes, b < 256

/-- Modelled from the spec: a public key is written as its 33 compressed
bytes with no extra framing. -/
def PublicKey.write (pk : PublicKey) : Bytes := pk.bytes

/-- Modelled from the spec: a public key decodes only from its canonical
compressed form; a non-canonical leading byte is an invalid value. -/
def PublicKey.read : Decoder PublicKey :=
  andThen (readBytes 33) fun bs => fun l =>
    if bs.head? = some 2 ∨ bs.head? = some 3 then .ok (⟨bs⟩, l)
    else .error .invalidValue

theorem pk_read_rt {pk : PublicKey} (h : pk.wf) (rest : Bytes) :
    PublicKey.read (pk.write ++ rest) = .ok (pk, rest) := by
  obtain ⟨h1, h2, -⟩ := h
  have hr : readBytes 33 (pk.bytes ++ rest) = .ok (pk.bytes, rest) := by
    have ha := readBytes_append pk.bytes rest
    rwa [h1] at ha
  rw [PublicKey.read, PublicKey.write, andThen_ok hr]
  simp [h2]

theorem pk_read_short {pk : PublicKey} (h : pk.wf) :
    ∀ p, p <+: pk.write → p ≠ pk.write → PublicKey.read p = .error .shortRead := by
  intro p hp hne
  have hl : p.length < 33 := by
    have hll := pre_length_lt hp hne
    have hw : pk.write.length = 33 := h.1
    omega
  exact andThen_error (readBytes_short 33 p hl)

theorem pk_write_ne_nil {pk : PublicKey} (h : pk.wf) : pk.write ≠ [] := by
  intro hc
  have hw : pk.write.length = 33 := h.1
  rw [hc] at hw
  simp at hw

/-- An ECDSA signature in its 64-byte compact form (the source stores
`secp256k1_zkp::ecdsa::Signature` values; section 6). -/
structure Signature where
  bytes : Bytes
  deriving DecidableEq, Repr

/-- A signature is well formed when it is exactly 64 bytes. -/
@[reducible] def Signature.wf (s : Signature) : Prop :=
  s.bytes.length = 64 ∧ ∀ b ∈ s.bytes, b < 256

/-- Modelled from the spec: a signature is written as its 64 compact bytes. -/
def Signature.write (s : Signature) : Bytes := s.bytes

/-- Modelled from the spec: a signature requires its canonical fixed byte
length. -/
def Signature.read : Decoder Signature := readWrapped 64 Signature.mk

theorem sig_read_rt {s : Signature} (h : s.wf) (rest : Bytes) :
    Signature.read (s.write ++ rest) = .ok (s, rest) :=
  readWrapped_rt h.1 rest

theorem sig_read_short {s : Signature} (h : s.wf) :
    ∀ p, p <+: s.write → p ≠ s.write → Signature.read p = .error .shortRead := by
  intro p hp hne
  have hl : p.length < 64 := by
    have hll := pre_length_lt hp hne
    have hw : s.write.length = 64 := h.1
    omega
  exact readWrapped_short hl

theorem sig_write_ne_nil {s : Signature} (h : s.wf) : s.write ≠ [] := by
  intro hc
  have hw : s.write.length = 64 := h.1
  rw [hc] at hw
  simp at hw

/-- A 32-byte secret (per-commitment and revocation secrets; the source
stores `secp256k1_zkp::SecretKey` values). -/
structure SecretKey where
  bytes : Bytes
  deriving DecidableEq, Repr

/-- A secret key is well formed when it is exactly 32 bytes. -/
@[reducible] def SecretKey.wf (s : SecretKey) : Prop :=
  s.bytes.length = 32 ∧ ∀ b ∈ s.bytes, b < 256

/-- Modelled from the spec: a secret is written as its 32 raw bytes. -/
def SecretKey.write (s : SecretKey) : Bytes := s.bytes

/-- Modelled from the spec: a 32-byte secret requires exactly 32 bytes. -/
def SecretKey.read : Decoder SecretKey := readWrapped 32 SecretKey.mk

theorem sec_read_rt {s : SecretKey} (h : s.wf) (rest : Bytes) :
    SecretKey.read (s.write ++ rest) = .ok (s, rest) :=
  readWrapped_rt h.1 rest

theorem sec_read_short {s : SecretKey} (h : s.wf) :
    ∀ p, p <+: s.write → p ≠ s.write → SecretKey.read p = .error .shortRead := by
  intro p hp hne
  have hl : p.length < 32 := by
    have hll := pre_length_lt hp hne
    have hw : s.write.length = 32 := h.1
    omega
  exact readWrapped_short hl

theorem sec_write_ne_nil {s : SecretKey} (h : s.wf) : s.write ≠ [] := by
  intro hc
  have hw : s.write.length = 32 := h.1
  rw [hc] at hw
  simp at hw

/-- An ECDSA adaptor signature (the source stores
`secp256k1_zkp::EcdsaAdaptorSignature` values); its canonical serialized
form is 162 bytes. -/
structure EcdsaAdaptorSignature where
  bytes : Bytes
  deriving DecidableEq, Repr

/-- An adaptor signature is well formed when it has its canonical fixed
width of 162 bytes. -/
@[reducible] def EcdsaAdaptorSignature.wf (s : EcdsaAdaptorSignature) : Prop :=
  s.bytes.length = 162 ∧ ∀ b ∈ s.bytes, b < 256

/-- Modelled from the spec: an adaptor signature uses its own fixed-width
canonical form, framed with no extra length prefix (section 4.1). -/
def EcdsaAdaptorSignature.write (s : EcdsaAdaptorSignature) : Bytes := s.bytes

/-- Modelled from the spec: decoding an adaptor signature reads its fixed
canonical width. -/
def EcdsaAdaptorSignature.read : Decoder EcdsaAdaptorSignature :=
  readWrapped 162 EcdsaAdaptorSignature.mk

theorem EcdsaAdaptorsig_read_rt {s : EcdsaAdaptorSignature} (h : s.wf)
    (rest : Bytes) : EcdsaAdaptorSignature.read (s.write ++ rest) = .ok (s, rest) :=
  readWrapped_rt h.1 rest

theorem EcdsaAdaptorsig_read_short {s : EcdsaAdaptorSignature} (h : s.wf) :
    ∀ p, p <+: s.write → p ≠ s.write →
      EcdsaAdaptorSignature.read p = .error .shortRead := by
  intro p hp hne
  have hl : p.length < 162 := by
    have hll := pre_length_lt hp hne
    have hw : s.write.length = 162 := h.1
    omega
  exact readWrapped_short hl

theorem EcdsaAdaptorsig_write_ne_nil {s : EcdsaAdaptorSignature}
    (h : s.wf) : s.write ≠ [] := by
  intro hc
  have hw : s.write.length = 162 := h.1
  rw [hc] at hw
  simp at hw

/-- A Bitcoin script (the `payout_spk` fields; the source stores
`bitcoin::Script` values), kept as its raw bytes. -/
structure Script where
  bytes : Bytes
  deriving DecidableEq, Repr

/-- A script is well formed when its length fits the 2-byte length prefix. -/
@[reducible] def Script.wf (s : Script) : Prop :=
  s.bytes.length < 256 ^ 2 ∧ ∀ b ∈ s.bytes, b < 256

/-- Modelled from the spec: a script is framed as a byte length followed by
that many bytes (section 4.1). -/
def Script.write (s : Script) : Bytes := natToBE 2 s.bytes.length ++ s.bytes

/-- Modelled from the spec: decoding a length-prefixed script. -/
def Script.read : Decoder Script :=
  andThen (readUInt 2) fun n => readWrapped n Script.mk

theorem script_read_rt {s : Script} (h : s.wf) (rest : Bytes) :
    Script.read (s.write ++ rest) = .ok (s, rest) := by
  rw [Script.read, Script.write, List.append_assoc,
    andThen_ok (readUInt_rt h.1 _)]
  exact readWrapped_rt rfl rest

theorem script_read_short {s : Script} (h : s.wf) :
    ∀ p, p <+: s.write → p ≠ s.write → Script.read p = .error .shortRead := by
  rw [Script.read, Script.write]
  by_cases hb : s.bytes = []
  · rw [hb, List.append_nil]
    intro p hp hne
    exact andThen_short_last readUIntBE_short p hp hne
  · refine andThen_short_step (readUInt_rt h.1) readUIntBE_short hb ?_
    intro q hq hqe
    have hl : q.length < s.bytes.length := pre_length_lt hq hqe
    exact readWrapped_short hl

theorem script_write_ne_nil {s : Script} : s.write ≠ [] :=
  app_ne_nil natToBE_succ_ne_nil

/-- Modelled from the spec: the embedded contract terms have their own
self-contained encoding and are treated as an opaque sub-message here
(sections 3 and 6); the model keeps the opaque payload bytes behind an
explicit 4-byte length frame so the decoder knows where the sub-message
ends. -/
structure ContractInfo where
  bytes : Bytes
  deriving DecidableEq, Repr

/-- The opaque contract-terms payload must fit its 4-byte length frame. -/
@[reducible] def ContractInfo.wf (c : ContractInfo) : Prop :=
  c.bytes.length < 256 ^ 4 ∧ ∀ b ∈ c.bytes, b < 256

/-- Modelled from the spec: the contract-terms sub-message written as a
self-delimiting length-framed payload. -/
def ContractInfo.write (c : ContractInfo) : Bytes :=
  natToBE 4 c.bytes.length ++ c.bytes

/-- Modelled from the spec: decoding the opaque contract-terms sub-message. -/
def ContractInfo.read : Decoder ContractInfo :=
  andThen (readUInt 4) fun n => readWrapped n ContractInfo.mk

theorem ci_read_rt {c : ContractInfo} (h : c.wf) (rest : Bytes) :
    ContractInfo.read (c.write ++ rest) = .ok (c, rest) := by
  rw [ContractInfo.read, ContractInfo.write, List.append_assoc,
    andThen_ok (readUInt_rt h.1 _)]
  exact readWrapped_rt rfl rest

theorem ci_read_short {c : ContractInfo} (h : c.wf) :
    ∀ p, p <+: c.write → p ≠ c.write → ContractInfo.read p = .error .shortRead := by
  rw [ContractInfo.read, ContractInfo.write]
  by_cases hb : c.bytes = []
  · rw [hb, List.append_nil]
    intro p hp hne
    exact andThen_short_last readUIntBE_short p hp hne
  · refine andThen_short_step (readUInt_rt h.1) readUIntBE_short hb ?_
    intro q hq hqe
    have hl : q.length < c.bytes.length := pre_length_lt hq hqe
    exact readWrapped_short hl

theorem ci_write_ne_nil {c : ContractInfo} : c.write ≠ [] :=
  app_ne_nil natToBE_succ_ne_nil

/-- Well-formedness of an HTLC signature list: the count fits the 2-byte
count prefix and every element is a well-formed 64-byte signature. -/
@[reducible] def sigsWf (l : List Signature) : Prop :=
  l.length < 256 ^ 2 ∧ ∀ s ∈ l, s.wf

/-- Modelled from the spec: a signature list is framed as a count followed
by that many fixed-size signatures (section 4.1). -/
def writeSigs (l : List Signature) : Bytes := writeVec Signature.bytes l

/-- Modelled from the spec: decoding a count-prefixed signature list. -/
def readSigs : Decoder (List Signature) := readVec 64 Signature.mk

theorem readSigs_rt {l : List Signature} (h : sigsWf l) (rest : Bytes) :
    readSigs (writeSigs l ++ rest) = .ok (l, rest) :=
  readVec_rt (fun _ => rfl) h.1 (fun s hs => (h.2 s hs).1) rest

theorem readSigs_short {l : List Signature} (h : sigsWf l) :
    ∀ p, p <+: writeSigs l → p ≠ writeSigs l → readSigs p = .error .shortRead :=
  readVec_short h.1 fun s hs => (h.2 s hs).1

theorem writeSigs_ne_nil {l : List Signature} : writeSigs l ≠ [] :=
  writeVec_ne_nil

/-- The full set of per-outcome CET adaptor signatures (the source stores a
`CetAdaptorSignatures` value imported from the messages crate root, not
present under the sources; modelled from the spec as the list of adaptor
signatures for all CETs). -/
structure CetAdaptorSignatures where
  sigs : List EcdsaAdaptorSignature
  deriving DecidableEq, Repr

/-- The CET adaptor signature set is well formed when the count fits the
2-byte prefix and every element is well formed. -/
@[reducible] def CetAdaptorSignatures.wf (c : CetAdaptorSignatures) : Prop :=
  c.sigs.length < 256 ^ 2 ∧ ∀ s ∈ c.sigs, s.wf

/-- Modelled from the spec: the CET adaptor signature set is written as a
count-prefixed sequence of fixed-width adaptor signatures. -/
def CetAdaptorSignatures.write (c : CetAdaptorSignatures) : Bytes :=
  writeVec EcdsaAdaptorSignature.bytes c.sigs

/-- Modelled from the spec: decoding the count-prefixed CET adaptor
signature set. -/
def CetAdaptorSignatures.read : Decoder CetAdaptorSignatures :=
  andThen (readVec 162 EcdsaAdaptorSignature.mk) fun sigs => fun l => .ok (⟨sigs⟩, l)

theorem cet_read_rt {c : CetAdaptorSignatures} (h : c.wf)
    (rest : Bytes) : CetAdaptorSignatures.read (c.write ++ rest) = .ok (c, rest) := by
  rw [CetAdaptorSignatures.read, CetAdaptorSignatures.write,
    andThen_ok (readVec_rt (fun _ => rfl) h.1 (fun s hs => (h.2 s hs).1) rest)]

theorem cet_read_short {c : CetAdaptorSignatures} (h : c.wf) :
    ∀ p, p <+: c.write → p ≠ c.write →
      CetAdaptorSignatures.read p = .error .shortRead := by
  intro p hp hne
  exact andThen_error
    (readVec_short h.1 (fun s hs => (h.2 s hs).1) p hp hne)

theorem cet_write_ne_nil {c : CetAdaptorSignatures} :
    c.write ≠ [] := writeVec_ne_nil

theorem andThen_chan {β : Type} {cid : Bytes} (h : cid.length = 32)
    (f : Bytes → Decoder β) (rest : Bytes) :
    andThen (readBytes 32) f (cid ++ rest) = f cid rest :=
  andThen_ok (readChanId_rt h rest)

theorem andThen_pk {β : Type} {pk : PublicKey} (h : pk.wf)
    (f : PublicKey → Decoder β) (rest : Bytes) :
    andThen PublicKey.read f (pk.write ++ rest) = f pk rest :=
  andThen_ok (pk_read_rt h rest)

theorem andThen_sig {β : Type} {s : Signature} (h : s.wf)
    (f : Signature → Decoder β) (rest : Bytes) :
    andThen Signature.read f (s.write ++ rest) = f s rest :=
  andThen_ok (sig_read_rt h rest)

theorem andThen_sec {β : Type} {s : SecretKey} (h : s.wf)
    (f : SecretKey → Decoder β) (rest : Bytes) :
    andThen SecretKey.read f (s.write ++ rest) = f s rest :=
  andThen_ok (sec_read_rt h rest)

theorem andThen_adaptor {β : Type} {s : EcdsaAdaptorSignature} (h : s.wf)
    (f : EcdsaAdaptorSignature → Decoder β) (rest : Bytes) :
    andThen EcdsaAdaptorSignature.read f (s.write ++ rest) = f s rest :=
  andThen_ok (EcdsaAdaptorsig_read_rt h rest)

theorem andThen_script {β : Type} {s : Script} (h : s.wf)
    (f : Script → Decoder β) (rest : Bytes) :
    andThen Script.read f (s.write ++ rest) = f s rest :=
  andThen_ok (script_read_rt h rest)

theorem andThen_ci {β : Type} {c : ContractInfo} (h : c.wf)
    (f : ContractInfo → Decoder β) (rest : Bytes) :
    andThen ContractInfo.read f (c.write ++ rest) = f c rest :=
  andThen_ok (ci_read_rt h rest)

theorem andThen_sigs {β : Type} {l : List Signature} (h : sigsWf l)
    (f : List Signature → Decoder β) (rest : Bytes) :
    andThen readSigs f (writeSigs l ++ rest) = f l rest :=
  andThen_ok (readSigs_rt h rest)

theorem andThen_cet {β : Type} {c : CetAdaptorSignatures} (h : c.wf)
    (f : CetAdaptorSignatures → Decoder β) (rest : Bytes) :
    andThen CetAdaptorSignatures.read f (c.write ++ rest) = f c rest :=
  andThen_ok (cet_read_rt h rest)

theorem andThen_uint {β : Type} {w n : Nat} (h : n < 256 ^ w)
    (f : Nat → Decoder β) (rest : Bytes) :
    andThen (readUInt w) f (natToBE w n ++ rest) = f n rest :=
  andThen_ok (readUInt_rt h rest)

theorem natToBE_ne_nil {w n : Nat} (h : 0 < w) : natToBE w n ≠ [] := by
  match w, h with
  | w + 1, _ => simp [natToBE]

/-- Well-formedness of a 32-byte channel identifier (`channel_id: [u8; 32]`
in every message struct of the source). -/
@[reducible] def chanIdWf (cid : Bytes) : Prop := cid.length = 32 ∧ ∀ b ∈ cid, b < 256

/-- The initiator's proposal to splice a contract into the channel
(`SubChannelOffer`, sub_channel.rs lines 42-82). -/
structure SubChannelOffer where
  channel_id : Bytes
  revocation_basepoint : PublicKey
  publish_basepoint : PublicKey
  own_basepoint : PublicKey
  next_per_split_point : PublicKey
  contract_info : ContractInfo
  channel_revocation_basepoint : PublicKey
  channel_publish_basepoint : PublicKey
  channel_own_basepoint : PublicKey
  channel_first_per_update_point : PublicKey
  payout_spk : Script
  payout_serial_id : Nat
  offer_collateral : Nat
  cet_locktime : Nat
  refund_locktime : Nat
  cet_nsequence : Nat
  fee_rate_per_vbyte : Nat
  deriving DecidableEq, Repr

/-- Well-formedness of a `SubChannelOffer`: every field is a well-formed
instance of its semantic type (serial id, collateral and fee rate are u64;
lock times and sequence are u32 in the source). -/
@[reducible] def SubChannelOffer.wf (m : SubChannelOffer) : Prop :=
  chanIdWf m.channel_id ∧ m.revocation_basepoint.wf ∧ m.publish_basepoint.wf ∧
    m.own_basepoint.wf ∧ m.next_per_split_point.wf ∧ m.contract_info.wf ∧
    m.channel_revocation_basepoint.wf ∧ m.channel_publish_basepoint.wf ∧
    m.channel_own_basepoint.wf ∧ m.channel_first_per_update_point.wf ∧
    m.payout_spk.wf ∧ m.payout_serial_id < 256 ^ 8 ∧
    m.offer_collateral < 256 ^ 8 ∧ m.cet_locktime < 256 ^ 4 ∧
    m.refund_locktime < 256 ^ 4 ∧ m.cet_nsequence < 256 ^ 4 ∧
    m.fee_rate_per_vbyte < 256 ^ 8

/-- Encoding of a `SubChannelOffer`: the fields in the declared order of the
`impl_dlc_writeable!(SubChannelOffer, ...)` invocation (lines 84-104), with
no padding between them. -/
def SubChannelOffer.write (m : SubChannelOffer) : Bytes :=
  m.channel_id ++ (m.revocation_basepoint.write ++ (m.publish_basepoint.write ++
    (m.own_basepoint.write ++ (m.next_per_split_point.write ++
    (m.contract_info.write ++ (m.channel_revocation_basepoint.write ++
    (m.channel_publish_basepoint.write ++ (m.channel_own_basepoint.write ++
    (m.channel_first_per_update_point.write ++ (m.payout_spk.write ++
    (natToBE 8 m.payout_serial_id ++ (natToBE 8 m.offer_collateral ++
    (natToBE 4 m.cet_locktime ++ (natToBE 4 m.refund_locktime ++
    (natToBE 4 m.cet_nsequence ++ natToBE 8 m.fee_rate_per_vbyte)))))))))))))))

/-- Decoding of a `SubChannelOffer`: the fields in the same declared order. -/
def SubChannelOffer.read : Decoder SubChannelOffer :=
  andThen (readBytes 32) fun channel_id =>
  andThen PublicKey.read fun revocation_basepoint =>
  andThen PublicKey.read fun publish_basepoint =>
  andThen PublicKey.read fun own_basepoint =>
  andThen PublicKey.read fun next_per_split_point =>
  andThen ContractInfo.read fun contract_info =>
  andThen PublicKey.read fun channel_revocation_basepoint =>
  andThen PublicKey.read fun channel_publish_basepoint =>
  andThen PublicKey.read fun channel_own_basepoint =>
  andThen PublicKey.read fun channel_first_per_update_point =>
  andThen Script.read fun payout_spk =>
  andThen (readUInt 8) fun payout_serial_id =>
  andThen (readUInt 8) fun offer_collateral =>
  andThen (readUInt 4) fun cet_locktime =>
  andThen (readUInt 4) fun refund_locktime =>
  andThen (readUInt 4) fun cet_nsequence =>
  andThen (readUInt 8) fun fee_rate_per_vbyte => fun l =>
    .ok (⟨channel_id, revocation_basepoint, publish_basepoint, own_basepoint,
      next_per_split_point, contract_info, channel_revocation_basepoint,
      channel_publish_basepoint, channel_own_basepoint,
      channel_first_per_update_point, payout_spk, payout_serial_id,
      offer_collateral, cet_locktime, refund_locktime, cet_nsequence,
      fee_rate_per_vbyte⟩, l)

theorem offer_read_rt {m : SubChannelOffer} (h : m.wf) (rest : Bytes) :
    SubChannelOffer.read (m.write ++ rest) = .ok (m, rest) := by
  obtain ⟨hc, h2, h3, h4, h5, h6, h7, h8, h9, h10, h11, h12, h13, h14, h15, h16,
    h17⟩ := h
  simp only [SubChannelOffer.read, SubChannelOffer.write, List.append_assoc,
    andThen_chan hc.1, andThen_pk h2, andThen_pk h3, andThen_pk h4,
    andThen_pk h5, andThen_ci h6, andThen_pk h7, andThen_pk h8, andThen_pk h9,
    andThen_pk h10, andThen_script h11, andThen_uint h12, andThen_uint h13,
    andThen_uint h14, andThen_uint h15, andThen_uint h16, andThen_uint h17]

theorem offer_read_short {m : SubChannelOffer} (h : m.wf) :
    ∀ p, p <+: m.write → p ≠ m.write →
      SubChannelOffer.read p = .error .shortRead := by
  obtain ⟨hc, h2, h3, h4, h5, h6, h7, h8, h9, h10, h11, h12, h13, h14, h15, h16,
    h17⟩ := h
  simp only [SubChannelOffer.read, SubChannelOffer.write]
  exact andThen_short_step (readChanId_rt hc.1) (readChanId_short hc.1)
    (app_ne_nil (pk_write_ne_nil h2))
    (andThen_short_step (pk_read_rt h2) (pk_read_short h2)
      (app_ne_nil (pk_write_ne_nil h3))
      (andThen_short_step (pk_read_rt h3) (pk_read_short h3)
        (app_ne_nil (pk_write_ne_nil h4))
        (andThen_short_step (pk_read_rt h4) (pk_read_short h4)
          (app_ne_nil (pk_write_ne_nil h5))
          (andThen_short_step (pk_read_rt h5) (pk_read_short h5)
            (app_ne_nil ci_write_ne_nil)
            (andThen_short_step (ci_read_rt h6) (ci_read_short h6)
              (app_ne_nil (pk_write_ne_nil h7))
              (andThen_short_step (pk_read_rt h7) (pk_read_short h7)
                (app_ne_nil (pk_write_ne_nil h8))
                (andThen_short_step (pk_read_rt h8) (pk_read_short h8)
                  (app_ne_nil (pk_write_ne_nil h9))
                  (andThen_short_step (pk_read_rt h9) (pk_read_short h9)
                    (app_ne_nil (pk_write_ne_nil h10))
                    (andThen_short_step (pk_read_rt h10) (pk_read_short h10)
                      (app_ne_nil script_write_ne_nil)
                      (andThen_short_step (script_read_rt h11) (script_read_short h11)
                        (app_ne_nil (natToBE_ne_nil (by omega)))
                        (andThen_short_step (readUInt_rt h12) readUIntBE_short
                          (app_ne_nil (natToBE_ne_nil (by omega)))
                          (andThen_short_step (readUInt_rt h13) readUIntBE_short
                            (app_ne_nil (natToBE_ne_nil (by omega)))
                            (andThen_short_step (readUInt_rt h14) readUIntBE_short
                              (app_ne_nil (natToBE_ne_nil (by omega)))
                              (andThen_short_step (readUInt_rt h15) readUIntBE_short
                                (app_ne_nil (natToBE_ne_nil (by omega)))
                                (andThen_short_step (readUInt_rt h16) readUIntBE_short
                                  (natToBE_ne_nil (by omega))
                                  (andThen_short_last readUIntBE_short))))))))))))))))

/-- The auxiliary balance-split record (`SubChannelInfo`, sub_channel.rs
lines 113-120); not one of the nine wire messages. -/
structure SubChannelInfo where
  sender_satoshi : Nat
  receiver_satoshi : Nat
  deriving DecidableEq, Repr

/-- Encoding of a `SubChannelInfo` per its `impl_dlc_writeable!` invocation
(line 120): the two u64 amounts in declared order. -/
def SubChannelInfo.write (m : SubChannelInfo) : Bytes :=
  natToBE 8 m.sender_satoshi ++ natToBE 8 m.receiver_satoshi

/-- Decoding of a `SubChannelInfo`. -/
def SubChannelInfo.read : Decoder SubChannelInfo :=
  andThen (readUInt 8) fun sender_satoshi =>
  andThen (readUInt 8) fun receiver_satoshi => fun l =>
    .ok (⟨sender_satoshi, receiver_satoshi⟩, l)

/-- The responder's acceptance (`SubChannelAccept`, sub_channel.rs lines
124-166). -/
structure SubChannelAccept where
  channel_id : Bytes
  revocation_basepoint : PublicKey
  publish_basepoint : PublicKey
  own_basepoint : PublicKey
  split_adaptor_signature : EcdsaAdaptorSignature
  commit_signature : Signature
  htlc_signatures : List Signature
  first_per_split_point : PublicKey
  channel_revocation_basepoint : PublicKey
  channel_publish_basepoint : PublicKey
  channel_own_basepoint : PublicKey
  cet_adaptor_signatures : CetAdaptorSignatures
  buffer_adaptor_signature : EcdsaAdaptorSignature
  refund_signature : Signature
  ln_glue_signature : Signature
  first_per_update_point : PublicKey
  payout_spk : Script
  payout_serial_id : Nat
  deriving DecidableEq, Repr

/-- Well-formedness of a `SubChannelAccept`. -/
@[reducible] def SubChannelAccept.wf (m : SubChannelAccept) : Prop :=
  chanIdWf m.channel_id ∧ m.revocation_basepoint.wf ∧ m.publish_basepoint.wf ∧
    m.own_basepoint.wf ∧ m.split_adaptor_signature.wf ∧ m.commit_signature.wf ∧
    sigsWf m.htlc_signatures ∧ m.first_per_split_point.wf ∧
    m.channel_revocation_basepoint.wf ∧ m.channel_publish_basepoint.wf ∧
    m.channel_own_basepoint.wf ∧ m.cet_adaptor_signatures.wf ∧
    m.buffer_adaptor_signature.wf ∧ m.refund_signature.wf ∧
    m.ln_glue_signature.wf ∧ m.first_per_update_point.wf ∧ m.payout_spk.wf ∧
    m.payout_serial_id < 256 ^ 8

/-- Encoding of a `SubChannelAccept` in the declared field order of its
`impl_dlc_writeable!` invocation (lines 168-189). -/
def SubChannelAccept.write (m : SubChannelAccept) : Bytes :=
  m.channel_id ++ (m.revocation_basepoint.write ++ (m.publish_basepoint.write ++
    (m.own_basepoint.write ++ (m.split_adaptor_signature.write ++
    (m.commit_signature.write ++ (writeSigs m.htlc_signatures ++
    (m.first_per_split_point.write ++ (m.channel_revocation_basepoint.write ++
    (m.channel_publish_basepoint.write ++ (m.channel_own_basepoint.write ++
    (m.cet_adaptor_signatures.write ++ (m.buffer_adaptor_signature.write ++
    (m.refund_signature.write ++ (m.ln_glue_signature.write ++
    (m.first_per_update_point.write ++ (m.payout_spk.write ++
    natToBE 8 m.payout_serial_id))))))))))))))))

/-- Decoding of a `SubChannelAccept` in the same declared order. -/
def SubChannelAccept.read : Decoder SubChannelAccept :=
  andThen (readBytes 32) fun channel_id =>
  andThen PublicKey.read fun revocation_basepoint =>
  andThen PublicKey.read fun publish_basepoint =>
  andThen PublicKey.read fun own_basepoint =>
  andThen EcdsaAdaptorSignature.read fun split_adaptor_signature =>
  andThen Signature.read fun commit_signature =>
  andThen readSigs fun htlc_signatures =>
  andThen PublicKey.read fun first_per_split_point =>
  andThen PublicKey.read fun channel_revocation_basepoint =>
  andThen PublicKey.read fun channel_publish_basepoint =>
  andThen PublicKey.read fun channel_own_basepoint =>
  andThen CetAdaptorSignatures.read fun cet_adaptor_signatures =>
  andThen EcdsaAdaptorSignature.read fun buffer_adaptor_signature =>
  andThen Signature.read fun refund_signature =>
  andThen Signature.read fun ln_glue_signature =>
  andThen PublicKey.read fun first_per_update_point =>
  andThen Script.read fun payout_spk =>
  andThen (readUInt 8) fun payout_serial_id => fun l =>
    .ok (⟨channel_id, revocation_basepoint, publish_basepoint, own_basepoint,
      split_adaptor_signature, commit_signature, htlc_signatures,
      first_per_split_point, channel_revocation_basepoint,
      channel_publish_basepoint, channel_own_basepoint, cet_adaptor_signatures,
      buffer_adaptor_signature, refund_signature, ln_glue_signature,
      first_per_update_point, payout_spk, payout_serial_id⟩, l)

theorem accept_read_rt {m : SubChannelAccept} (h : m.wf) (rest : Bytes) :
    SubChannelAccept.read (m.write ++ rest) = .ok (m, rest) := by
  obtain ⟨hc, h2, h3, h4, h5, h6, h7, h8, h9, h10, h11, h12, h13, h14, h15, h16,
    h17, h18⟩ := h
  simp only [SubChannelAccept.read, SubChannelAccept.write, List.append_assoc,
    andThen_chan hc.1, andThen_pk h2, andThen_pk h3, andThen_pk h4,
    andThen_adaptor h5, andThen_sig h6, andThen_sigs h7, andThen_pk h8,
    andThen_pk h9, andThen_pk h10, andThen_pk h11, andThen_cet h12,
    andThen_adaptor h13, andThen_sig h14, andThen_sig h15, andThen_pk h16,
    andThen_script h17, andThen_uint h18]

theorem accept_read_short {m : SubChannelAccept} (h : m.wf) :
    ∀ p, p <+: m.write → p ≠ m.write →
      SubChannelAccept.read p = .error .shortRead := by
  obtain ⟨hc, h2, h3, h4, h5, h6, h7, h8, h9, h10, h11, h12, h13, h14, h15, h16,
    h17, h18⟩ := h
  simp only [SubChannelAccept.read, SubChannelAccept.write]
  exact andThen_short_step (readChanId_rt hc.1) (readChanId_short hc.1)
    (app_ne_nil (pk_write_ne_nil h2))
    (andThen_short_step (pk_read_rt h2) (pk_read_short h2)
      (app_ne_nil (pk_write_ne_nil h3))
      (andThen_short_step (pk_read_rt h3) (pk_read_short h3)
        (app_ne_nil (pk_write_ne_nil h4))
        (andThen_short_step (pk_read_rt h4) (pk_read_short h4)
          (app_ne_nil (EcdsaAdaptorsig_write_ne_nil h5))
          (andThen_short_step (EcdsaAdaptorsig_read_rt h5)
            (EcdsaAdaptorsig_read_short h5)
            (app_ne_nil (sig_write_ne_nil h6))
            (andThen_short_step (sig_read_rt h6) (sig_read_short h6)
              (app_ne_nil writeSigs_ne_nil)
              (andThen_short_step (readSigs_rt h7) (readSigs_short h7)
                (app_ne_nil (pk_write_ne_nil h8))
                (andThen_short_step (pk_read_rt h8) (pk_read_short h8)
                  (app_ne_nil (pk_write_ne_nil h9))
                  (andThen_short_step (pk_read_rt h9) (pk_read_short h9)
                    (app_ne_nil (pk_write_ne_nil h10))
                    (andThen_short_step (pk_read_rt h10) (pk_read_short h10)
                      (app_ne_nil (pk_write_ne_nil h11))
                      (andThen_short_step (pk_read_rt h11) (pk_read_short h11)
                        (app_ne_nil cet_write_ne_nil)
                        (andThen_short_step (cet_read_rt h12)
                          (cet_read_short h12)
                          (app_ne_nil (EcdsaAdaptorsig_write_ne_nil h13))
                          (andThen_short_step (EcdsaAdaptorsig_read_rt h13)
                            (EcdsaAdaptorsig_read_short h13)
                            (app_ne_nil (sig_write_ne_nil h14))
                            (andThen_short_step (sig_read_rt h14)
                              (sig_read_short h14)
                              (app_ne_nil (sig_write_ne_nil h15))
                              (andThen_short_step (sig_read_rt h15)
                                (sig_read_short h15)
                                (app_ne_nil (pk_write_ne_nil h16))
                                (andThen_short_step (pk_read_rt h16)
                                  (pk_read_short h16)
                                  (app_ne_nil script_write_ne_nil)
                                  (andThen_short_step (script_read_rt h17)
                                    (script_read_short h17)
                                    (natToBE_ne_nil (by omega))
                                    (andThen_short_last readUIntBE_short)))))))))))))))))

/-- The initiator's counter-signatures, revealing revocation material
(`SubChannelConfirm`, sub_channel.rs lines 193-215). -/
structure SubChannelConfirm where
  channel_id : Bytes
  per_commitment_secret : SecretKey
  next_per_commitment_point : PublicKey
  split_adaptor_signature : EcdsaAdaptorSignature
  commit_signature : Signature
  htlc_signatures : List Signature
  cet_adaptor_signatures : CetAdaptorSignatures
  buffer_adaptor_signature : EcdsaAdaptorSignature
  refund_signature : Signature
  ln_glue_signature : Signature
  deriving DecidableEq, Repr

/-- Well-formedness of a `SubChannelConfirm`. -/
@[reducible] def SubChannelConfirm.wf (m : SubChannelConfirm) : Prop :=
  chanIdWf m.channel_id ∧ m.per_commitment_secret.wf ∧
    m.next_per_commitment_point.wf ∧ m.split_adaptor_signature.wf ∧
    m.commit_signature.wf ∧ sigsWf m.htlc_signatures ∧
    m.cet_adaptor_signatures.wf ∧ m.buffer_adaptor_signature.wf ∧
    m.refund_signature.wf ∧ m.ln_glue_signature.wf

/-- Encoding of a `SubChannelConfirm` in the declared field order of its
`impl_dlc_writeable!` invocation (lines 217-228). -/
def SubChannelConfirm.write (m : SubChannelConfirm) : Bytes :=
  m.channel_id ++ (m.per_commitment_secret.write ++
    (m.next_per_commitment_point.write ++ (m.split_adaptor_signature.write ++
    (m.commit_signature.write ++ (writeSigs m.htlc_signatures ++
    (m.cet_adaptor_signatures.write ++ (m.buffer_adaptor_signature.write ++
    (m.refund_signature.write ++ m.ln_glue_signature.write))))))))

/-- Decoding of a `SubChannelConfirm` in the same declared order. -/
def SubChannelConfirm.read : Decoder SubChannelConfirm :=
  andThen (readBytes 32) fun channel_id =>
  andThen SecretKey.read fun per_commitment_secret =>
  andThen PublicKey.read fun next_per_commitment_point =>
  andThen EcdsaAdaptorSignature.read fun split_adaptor_signature =>
  andThen Signature.read fun commit_signature =>
  andThen readSigs fun htlc_signatures =>
  andThen CetAdaptorSignatures.read fun cet_adaptor_signatures =>
  andThen EcdsaAdaptorSignature.read fun buffer_adaptor_signature =>
  andThen Signature.read fun refund_signature =>
  andThen Signature.read fun ln_glue_signature => fun l =>
    .ok (⟨channel_id, per_commitment_secret, next_per_commitment_point,
      split_adaptor_signature, commit_signature, htlc_signatures,
      cet_adaptor_signatures, buffer_adaptor_signature, refund_signature,
      ln_glue_signature⟩, l)

theorem confirm_read_rt {m : SubChannelConfirm} (h : m.wf) (rest : Bytes) :
    SubChannelConfirm.read (m.write ++ rest) = .ok (m, rest) := by
  obtain ⟨hc, h2, h3, h4, h5, h6, h7, h8, h9, h10⟩ := h
  simp only [SubChannelConfirm.read, SubChannelConfirm.write, List.append_assoc,
    andThen_chan hc.1, andThen_sec h2, andThen_pk h3, andThen_adaptor h4,
    andThen_sig h5, andThen_sigs h6, andThen_cet h7, andThen_adaptor h8,
    andThen_sig h9, andThen_sig h10]

theorem confirm_read_short {m : SubChannelConfirm} (h : m.wf) :
    ∀ p, p <+: m.write → p ≠ m.write →
      SubChannelConfirm.read p = .error .shortRead := by
  obtain ⟨hc, h2, h3, h4, h5, h6, h7, h8, h9, h10⟩ := h
  simp only [SubChannelConfirm.read, SubChannelConfirm.write]
  exact andThen_short_step (readChanId_rt hc.1) (readChanId_short hc.1)
    (app_ne_nil (sec_write_ne_nil h2))
    (andThen_short_step (sec_read_rt h2) (sec_read_short h2)
      (app_ne_nil (pk_write_ne_nil h3))
      (andThen_short_step (pk_read_rt h3) (pk_read_short h3)
        (app_ne_nil (EcdsaAdaptorsig_write_ne_nil h4))
        (andThen_short_step (EcdsaAdaptorsig_read_rt h4)
          (EcdsaAdaptorsig_read_short h4)
          (app_ne_nil (sig_write_ne_nil h5))
          (andThen_short_step (sig_read_rt h5) (sig_read_short h5)
            (app_ne_nil writeSigs_ne_nil)
            (andThen_short_step (readSigs_rt h6) (readSigs_short h6)
              (app_ne_nil cet_write_ne_nil)
              (andThen_short_step (cet_read_rt h7)
                (cet_read_short h7)
                (app_ne_nil (EcdsaAdaptorsig_write_ne_nil h8))
                (andThen_short_step (EcdsaAdaptorsig_read_rt h8)
                  (EcdsaAdaptorsig_read_short h8)
                  (app_ne_nil (sig_write_ne_nil h9))
                  (andThen_short_step (sig_read_rt h9) (sig_read_short h9)
                    (sig_write_ne_nil h10)
                    (andThen_short_last (sig_read_short h10))))))))))

/-- The responder's final revocation handoff (`SubChannelFinalize`,
sub_channel.rs lines 232-239). -/
structure SubChannelFinalize where
  channel_id : Bytes
  per_commitment_secret : SecretKey
  next_per_commitment_point : PublicKey
  deriving DecidableEq, Repr

/-- Well-formedness of a `SubChannelFinalize`. -/
@[reducible] def SubChannelFinalize.wf (m : SubChannelFinalize) : Prop :=
  chanIdWf m.channel_id ∧ m.per_commitment_secret.wf ∧
    m.next_per_commitment_point.wf

/-- Encoding of a `SubChannelFinalize` in the declared field order of its
`impl_dlc_writeable!` invocation (lines 241-246). -/
def SubChannelFinalize.write (m : SubChannelFinalize) : Bytes :=
  m.channel_id ++ (m.per_commitment_secret.write ++
    m.next_per_commitment_point.write)

/-- Decoding of a `SubChannelFinalize` in the same declared order. -/
def SubChannelFinalize.read : Decoder SubChannelFinalize :=
  andThen (readBytes 32) fun channel_id =>
  andThen SecretKey.read fun per_commitment_secret =>
  andThen PublicKey.read fun next_per_commitment_point => fun l =>
    .ok (⟨channel_id, per_commitment_secret, next_per_commitment_point⟩, l)

theorem finalize_read_rt {m : SubChannelFinalize} (h : m.wf)
    (rest : Bytes) : SubChannelFinalize.read (m.write ++ rest) = .ok (m, rest) := by
  obtain ⟨hc, h2, h3⟩ := h
  simp only [SubChannelFinalize.read, SubChannelFinalize.write, List.append_assoc,
    andThen_chan hc.1, andThen_sec h2, andThen_pk h3]

theorem finalize_read_short {m : SubChannelFinalize} (h : m.wf) :
    ∀ p, p <+: m.write → p ≠ m.write →
      SubChannelFinalize.read p = .error .shortRead := by
  obtain ⟨hc, h2, h3⟩ := h
  simp only [SubChannelFinalize.read, SubChannelFinalize.write]
  exact andThen_short_step (readChanId_rt hc.1) (readChanId_short hc.1)
    (app_ne_nil (sec_write_ne_nil h2))
    (andThen_short_step (sec_read_rt h2) (sec_read_short h2)
      (pk_write_ne_nil h3)
      (andThen_short_last (pk_read_short h3)))

/-- The proposal to remove the contract, settling to a stated balance
(`SubChannelCloseOffer`, sub_channel.rs lines 250-255). -/
structure SubChannelCloseOffer where
  channel_id : Bytes
  accept_balance : Nat
  deriving DecidableEq, Repr

/-- Well-formedness of a `SubChannelCloseOffer` (the balance is a u64). -/
@[reducible] def SubChannelCloseOffer.wf (m : SubChannelCloseOffer) : Prop :=
  chanIdWf m.channel_id ∧ m.accept_balance < 256 ^ 8

/-- Encoding of a `SubChannelCloseOffer` in the declared field order of its
`impl_dlc_writeable!` invocation (lines 257-260). -/
def SubChannelCloseOffer.write (m : SubChannelCloseOffer) : Bytes :=
  m.channel_id ++ natToBE 8 m.accept_balance

/-- Decoding of a `SubChannelCloseOffer` in the same declared order. -/
def SubChannelCloseOffer.read : Decoder SubChannelCloseOffer :=
  andThen (readBytes 32) fun channel_id =>
  andThen (readUInt 8) fun accept_balance => fun l =>
    .ok (⟨channel_id, accept_balance⟩, l)

theorem closeOffer_read_rt {m : SubChannelCloseOffer} (h : m.wf)
    (rest : Bytes) : SubChannelCloseOffer.read (m.write ++ rest) = .ok (m, rest) := by
  obtain ⟨hc, h2⟩ := h
  simp only [SubChannelCloseOffer.read, SubChannelCloseOffer.write,
    List.append_assoc, andThen_chan hc.1]
  exact andThen_ok (readUInt_rt h2 rest)

theorem closeOffer_read_short {m : SubChannelCloseOffer} (h : m.wf) :
    ∀ p, p <+: m.write → p ≠ m.write →
      SubChannelCloseOffer.read p = .error .shortRead := by
  obtain ⟨hc, h2⟩ := h
  simp only [SubChannelCloseOffer.read, SubChannelCloseOffer.write]
  exact andThen_short_step (readChanId_rt hc.1) (readChanId_short hc.1)
    (natToBE_ne_nil (by omega))
    (andThen_short_last readUIntBE_short)

/-- The acceptance of the close, with signatures for the post-close channel
state (`SubChannelCloseAccept`, sub_channel.rs lines 264-271). -/
structure SubChannelCloseAccept where
  channel_id : Bytes
  commit_signature : Signature
  htlc_signatures : List Signature
  deriving DecidableEq, Repr

/-- Well-formedness of a `SubChannelCloseAccept`. -/
@[reducible] def SubChannelCloseAccept.wf (m : SubChannelCloseAccept) : Prop :=
  chanIdWf m.channel_id ∧ m.commit_signature.wf ∧ sigsWf m.htlc_signatures

/-- Encoding of a `SubChannelCloseAccept` in the declared field order of its
`impl_dlc_writeable!` invocation (lines 273-277). -/
def SubChannelCloseAccept.write (m : SubChannelCloseAccept) : Bytes :=
  m.channel_id ++ (m.commit_signature.write ++ writeSigs m.htlc_signatures)

/-- Decoding of a `SubChannelCloseAccept` in the same declared order. -/
def SubChannelCloseAccept.read : Decoder SubChannelCloseAccept :=
  andThen (readBytes 32) fun channel_id =>
  andThen Signature.read fun commit_signature =>
  andThen readSigs fun htlc_signatures => fun l =>
    .ok (⟨channel_id, commit_signature, htlc_signatures⟩, l)

theorem closeAccept_read_rt {m : SubChannelCloseAccept} (h : m.wf)
    (rest : Bytes) : SubChannelCloseAccept.read (m.write ++ rest) = .ok (m, rest) := by
  obtain ⟨hc, h2, h3⟩ := h
  simp only [SubChannelCloseAccept.read, SubChannelCloseAccept.write,
    List.append_assoc, andThen_chan hc.1, andThen_sig h2, andThen_sigs h3]

theorem closeAccept_read_short {m : SubChannelCloseAccept} (h : m.wf) :
    ∀ p, p <+: m.write → p ≠ m.write →
      SubChannelCloseAccept.read p = .error .shortRead := by
  obtain ⟨hc, h2, h3⟩ := h
  simp only [SubChannelCloseAccept.read, SubChannelCloseAccept.write]
  exact andThen_short_step (readChanId_rt hc.1) (readChanId_short hc.1)
    (app_ne_nil (sig_write_ne_nil h2))
    (andThen_short_step (sig_read_rt h2) (sig_read_short h2)
      writeSigs_ne_nil
      (andThen_short_last (readSigs_short h3)))

/-- The counter-signatures plus revocation of the pre-close state
(`SubChannelCloseConfirm`, sub_channel.rs lines 281-294). -/
structure SubChannelCloseConfirm where
  channel_id : Bytes
  commit_signature : Signature
  htlc_signatures : List Signature
  split_revocation_secret : SecretKey
  commit_revocation_secret : SecretKey
  next_per_commitment_point : PublicKey
  deriving DecidableEq, Repr

/-- Well-formedness of a `SubChannelCloseConfirm`. -/
@[reducible] def SubChannelCloseConfirm.wf (m : SubChannelCloseConfirm) : Prop :=
  chanIdWf m.channel_id ∧ m.commit_signature.wf ∧ sigsWf m.htlc_signatures ∧
    m.split_revocation_secret.wf ∧ m.commit_revocation_secret.wf ∧
    m.next_per_commitment_point.wf

/-- Encoding of a `SubChannelCloseConfirm` in the declared field order of its
`impl_dlc_writeable!` invocation (lines 296-303). -/
def SubChannelCloseConfirm.write (m : SubChannelCloseConfirm) : Bytes :=
  m.channel_id ++ (m.commit_signature.write ++ (writeSigs m.htlc_signatures ++
    (m.split_revocation_secret.write ++ (m.commit_revocation_secret.write ++
    m.next_per_commitment_point.write))))

/-- Decoding of a `SubChannelCloseConfirm` in the same declared order. -/
def SubChannelCloseConfirm.read : Decoder SubChannelCloseConfirm :=
  andThen (readBytes 32) fun channel_id =>
  andThen Signature.read fun commit_signature =>
  andThen readSigs fun htlc_signatures =>
  andThen SecretKey.read fun split_revocation_secret =>
  andThen SecretKey.read fun commit_revocation_secret =>
  andThen PublicKey.read fun next_per_commitment_point => fun l =>
    .ok (⟨channel_id, commit_signature, htlc_signatures,
      split_revocation_secret, commit_revocation_secret,
      next_per_commitment_point⟩, l)

theorem closeConfirm_read_rt {m : SubChannelCloseConfirm} (h : m.wf)
    (rest : Bytes) : SubChannelCloseConfirm.read (m.write ++ rest) = .ok (m, rest) := by
  obtain ⟨hc, h2, h3, h4, h5, h6⟩ := h
  simp only [SubChannelCloseConfirm.read, SubChannelCloseConfirm.write,
    List.append_assoc, andThen_chan hc.1, andThen_sig h2, andThen_sigs h3,
    andThen_sec h4, andThen_sec h5, andThen_pk h6]

theorem closeConfirm_read_short {m : SubChannelCloseConfirm} (h : m.wf) :
    ∀ p, p <+: m.write → p ≠ m.write →
      SubChannelCloseConfirm.read p = .error .shortRead := by
  obtain ⟨hc, h2, h3, h4, h5, h6⟩ := h
  simp only [SubChannelCloseConfirm.read, SubChannelCloseConfirm.write]
  exact andThen_short_step (readChanId_rt hc.1) (readChanId_short hc.1)
    (app_ne_nil (sig_write_ne_nil h2))
    (andThen_short_step (sig_read_rt h2) (sig_read_short h2)
      (app_ne_nil writeSigs_ne_nil)
      (andThen_short_step (readSigs_rt h3) (readSigs_short h3)
        (app_ne_nil (sec_write_ne_nil h4))
        (andThen_short_step (sec_read_rt h4) (sec_read_short h4)
          (app_ne_nil (sec_write_ne_nil h5))
          (andThen_short_step (sec_read_rt h5) (sec_read_short h5)
            (pk_write_ne_nil h6)
            (andThen_short_last (pk_read_short h6))))))

/-- The final revocation handoff completing the close
(`SubChannelCloseFinalize`, sub_channel.rs lines 307-316). -/
structure SubChannelCloseFinalize where
  channel_id : Bytes
  split_revocation_secret : SecretKey
  commit_revocation_secret : SecretKey
  next_per_commitment_point : PublicKey
  deriving DecidableEq, Repr

/-- Well-formedness of a `SubChannelCloseFinalize`. -/
@[reducible] def SubChannelCloseFinalize.wf (m : SubChannelCloseFinalize) : Prop :=
  chanIdWf m.channel_id ∧ m.split_revocation_secret.wf ∧
    m.commit_revocation_secret.wf ∧ m.next_per_commitment_point.wf

/-- Encoding of a `SubChannelCloseFinalize` in the declared field order of
its `impl_dlc_writeable!` invocation (lines 318-323). -/
def SubChannelCloseFinalize.write (m : SubChannelCloseFinalize) : Bytes :=
  m.channel_id ++ (m.split_revocation_secret.write ++
    (m.commit_revocation_secret.write ++ m.next_per_commitment_point.write))

/-- Decoding of a `SubChannelCloseFinalize` in the same declared order. -/
def SubChannelCloseFinalize.read : Decoder SubChannelCloseFinalize :=
  andThen (readBytes 32) fun channel_id =>
  andThen SecretKey.read fun split_revocation_secret =>
  andThen SecretKey.read fun commit_revocation_secret =>
  andThen PublicKey.read fun next_per_commitment_point => fun l =>
    .ok (⟨channel_id, split_revocation_secret, commit_revocation_secret,
      next_per_commitment_point⟩, l)

theorem closeFinalize_read_rt {m : SubChannelCloseFinalize} (h : m.wf)
    (rest : Bytes) :
    SubChannelCloseFinalize.read (m.write ++ rest) = .ok (m, rest) := by
  obtain ⟨hc, h2, h3, h4⟩ := h
  simp only [SubChannelCloseFinalize.read, SubChannelCloseFinalize.write,
    List.append_assoc, andThen_chan hc.1, andThen_sec h2, andThen_sec h3,
    andThen_pk h4]

theorem closeFinalize_read_short {m : SubChannelCloseFinalize} (h : m.wf) :
    ∀ p, p <+: m.write → p ≠ m.write →
      SubChannelCloseFinalize.read p = .error .shortRead := by
  obtain ⟨hc, h2, h3, h4⟩ := h
  simp only [SubChannelCloseFinalize.read, SubChannelCloseFinalize.write]
  exact andThen_short_step (readChanId_rt hc.1) (readChanId_short hc.1)
    (app_ne_nil (sec_write_ne_nil h2))
    (andThen_short_step (sec_read_rt h2) (sec_read_short h2)
      (app_ne_nil (sec_write_ne_nil h3))
      (andThen_short_step (sec_read_rt h3) (sec_read_short h3)
        (pk_write_ne_nil h4)
        (andThen_short_last (pk_read_short h4))))

/-- The explicit refusal of a close proposal (`SubChannelCloseReject`,
sub_channel.rs lines 327-330). -/
structure SubChannelCloseReject where
  channel_id : Bytes
  deriving DecidableEq, Repr

/-- Well-formedness of a `SubChannelCloseReject`. -/
@[reducible] def SubChannelCloseReject.wf (m : SubChannelCloseReject) : Prop :=
  chanIdWf m.channel_id

/-- Encoding of a `SubChannelCloseReject` per its `impl_dlc_writeable!`
invocation (line 332): the channel identifier alone. -/
def SubChannelCloseReject.write (m : SubChannelCloseReject) : Bytes :=
  m.channel_id

/-- Decoding of a `SubChannelCloseReject`. -/
def SubChannelCloseReject.read : Decoder SubChannelCloseReject :=
  andThen (readBytes 32) fun channel_id => fun l => .ok (⟨channel_id⟩, l)

theorem closeReject_read_rt {m : SubChannelCloseReject} (h : m.wf)
    (rest : Bytes) :
    SubChannelCloseReject.read (m.write ++ rest) = .ok (m, rest) := by
  simp only [SubChannelCloseReject.read, SubChannelCloseReject.write,
    andThen_chan h.1]

theorem closeReject_read_short {m : SubChannelCloseReject} (h : m.wf) :
    ∀ p, p <+: m.write → p ≠ m.write →
      SubChannelCloseReject.read p = .error .shortRead := by
  simp only [SubChannelCloseReject.read, SubChannelCloseReject.write]
  exact andThen_short_last (readChanId_short h.1)

/-- The closed enumeration of sub-channel messages (`SubChannelMessage`,
sub_channel.rs lines 14-33). -/
inductive SubChannelMessage where
  | Request (msg : SubChannelOffer)
  | Accept (msg : SubChannelAccept)
  | Confirm (msg : SubChannelConfirm)
  | Finalize (msg : SubChannelFinalize)
  | CloseOffer (msg : SubChannelCloseOffer)
  | CloseAccept (msg : SubChannelCloseAccept)
  | CloseConfirm (msg : SubChannelCloseConfirm)
  | CloseFinalize (msg : SubChannelCloseFinalize)
  | CloseReject (msg : SubChannelCloseReject)
  deriving DecidableEq, Repr

/-- Modelled from the spec: the numeric type tags of the nine sub-channel
message kinds (section 6: every message is preceded by a numeric type tag).
The concrete values are not fixed by the spec; what matters is that they
form a closed, stable set of nine distinct numbers. -/
def subChannelMessageTypeIds : List Nat := [1, 2, 3, 4, 5, 6, 7, 8, 9]

/-- Lifting of a payload decode result into an envelope decode result,
discarding the remaining bytes (the envelope owns message boundaries,
section 4.2). -/
def mapMsg {α : Type} (f : α → SubChannelMessage) :
    DecResult α → Except DecodeError SubChannelMessage
  | .error e => .error e
  | .ok (v, _) => .ok (f v)

/-- Modelled from the spec: `unwrap(tag, bytes)` routes the payload to the
decoder matching the tag and fails with an unknown-message-type error for
any tag outside the closed enumeration (section 4.3). -/
def unwrap (tag : Nat) (l : Bytes) : Except DecodeError SubChannelMessage :=
  if tag = 1 then mapMsg SubChannelMessage.Request (SubChannelOffer.read l)
  else if tag = 2 then mapMsg SubChannelMessage.Accept (SubChannelAccept.read l)
  else if tag = 3 then mapMsg SubChannelMessage.Confirm (SubChannelConfirm.read l)
  else if tag = 4 then mapMsg SubChannelMessage.Finalize (SubChannelFinalize.read l)
  else if tag = 5 then mapMsg SubChannelMessage.CloseOffer (SubChannelCloseOffer.read l)
  else if tag = 6 then mapMsg SubChannelMessage.CloseAccept (SubChannelCloseAccept.read l)
  else if tag = 7 then mapMsg SubChannelMessage.CloseConfirm (SubChannelCloseConfirm.read l)
  else if tag = 8 then mapMsg SubChannelMessage.CloseFinalize (SubChannelCloseFinalize.read l)
  else if tag = 9 then mapMsg SubChannelMessage.CloseReject (SubChannelCloseReject.read l)
  else .error .unknownMessageType

/-- The nine sub-channel message kinds, as events of the negotiation state
machine. -/
inductive SubChannelMsgKind where
  | offer
  | accept
  | confirm
  | finalize
  | closeOffer
  | closeAccept
  | closeConfirm
  | closeFinalize
  | closeReject
  deriving DecidableEq, Repr

/-- The per-channel negotiation states of one side of a sub-channel session.
Modelled from the spec (section 4.4): the initiator/responder distinction
only renames the intermediate states (`OfferSent` versus `OfferReceived`),
so one state per protocol step suffices for either side's view; the
rejected close ends back at `finalized` with the sub-channel still active. -/
inductive SubChannelPhase where
  | idle
  | offered
  | accepted
  | confirmed
  | finalized
  | closeOffered
  | closeAccepted
  | closeConfirmed
  | closeFinalized
  deriving DecidableEq, Repr

/-- Modelled from the spec: the single authoritative state-transition table
of the negotiation state machine (section 4.4). Open flow
`Idle → Offer → Accept → Confirm → Finalize → Finalized`; close flow only
from `Finalized`, ending at the terminal `closeFinalized` or back at
`finalized` on CloseReject. Every undefined `(state, message)` pair is a
sequencing violation (`none`). -/
def transition : SubChannelPhase → SubChannelMsgKind → Option SubChannelPhase
  | .idle, .offer => some .offered
  | .offered, .accept => some .accepted
  | .accepted, .confirm => some .confirmed
  | .confirmed, .finalize => some .finalized
  | .finalized, .closeOffer => some .closeOffered
  | .closeOffered, .closeAccept => some .closeAccepted
  | .closeOffered, .closeReject => some .finalized
  | .closeAccepted, .closeConfirm => some .closeConfirmed
  | .closeConfirmed, .closeFinalize => some .closeFinalized
  | _, _ => none

/-- Modelled from the spec: processing one message against the session
state. A legal transition advances the state (second component `true`); a
sequencing violation is reported to the caller (`false`) and leaves the
session state exactly as it was (section 7). -/
def processMsg (s : SubChannelPhase) (k : SubChannelMsgKind) :
    SubChannelPhase × Bool :=
  match transition s k with
  | some s' => (s', true)
  | none => (s, false)

/-- Modelled from the spec: running a message sequence from a state,
failing on the first sequencing violation. -/
def runMsgs (s : SubChannelPhase) : List SubChannelMsgKind → Option SubChannelPhase
  | [] => some s
  | k :: ks =>
    match transition s k with
    | some s' => runMsgs s' ks
    | none => none

/-- A concrete well-formed compressed public key (leading byte 2). -/
def pkEx : PublicKey := ⟨2 :: List.replicate 32 0⟩

/-- A concrete well-formed 64-byte signature. -/
def sigEx : Signature := ⟨List.replicate 64 0⟩

/-- A concrete well-formed 32-byte secret. -/
def secEx : SecretKey := ⟨List.replicate 32 0⟩

/-- A concrete well-formed 162-byte adaptor signature. -/
def adaptorEx : EcdsaAdaptorSignature := ⟨List.replicate 162 0⟩

/-- The all-zero 32-byte channel identifier. -/
def cidZero : Bytes := List.replicate 32 0

/-- The all-one-bit 32-byte channel identifier. -/
def cidOnes : Bytes := List.replicate 32 255

/-- A concrete one-byte payout script. -/
def scriptEx : Script := ⟨[81]⟩

/-- A concrete opaque contract-terms payload. -/
def ciEx : ContractInfo := ⟨[42]⟩

/-- A concrete well-formed `SubChannelOffer`. -/
def offerEx : SubChannelOffer :=
  ⟨cidZero, pkEx, pkEx, pkEx, pkEx, ciEx, pkEx, pkEx, pkEx, pkEx, scriptEx,
    7, 100000, 1700000, 1800000, 4294967294, 25⟩

/-- A concrete well-formed `SubChannelAccept` with an empty HTLC signature
list and an all-one-bit channel identifier. -/
def acceptEx : SubChannelAccept :=
  ⟨cidOnes, pkEx, pkEx, pkEx, adaptorEx, sigEx, [], pkEx, pkEx, pkEx, pkEx,
    ⟨[adaptorEx]⟩, adaptorEx, sigEx, sigEx, pkEx, scriptEx, 1⟩

/-- A concrete well-formed `SubChannelConfirm`. -/
def confirmEx : SubChannelConfirm :=
  ⟨cidZero, secEx, pkEx, adaptorEx, sigEx, [sigEx], ⟨[]⟩, adaptorEx, sigEx,
    sigEx⟩

/-- A concrete well-formed `SubChannelFinalize`. -/
def finalizeEx : SubChannelFinalize := ⟨cidZero, secEx, pkEx⟩

/-- A concrete well-formed `SubChannelCloseOffer`. -/
def closeOfferEx : SubChannelCloseOffer := ⟨cidOnes, 12345⟩

/-- A concrete well-formed `SubChannelCloseAccept`. -/
def closeAcceptEx : SubChannelCloseAccept := ⟨cidZero, sigEx, [sigEx, sigEx]⟩

/-- A concrete well-formed `SubChannelCloseConfirm`. -/
def closeConfirmEx : SubChannelCloseConfirm :=
  ⟨cidZero, sigEx, [], secEx, secEx, pkEx⟩

/-- A concrete well-formed `SubChannelCloseFinalize`. -/
def closeFinalizeEx : SubChannelCloseFinalize := ⟨cidOnes, secEx, secEx, pkEx⟩

/-- A concrete well-formed `SubChannelCloseReject`. -/
def closeRejectEx : SubChannelCloseReject := ⟨cidZero⟩

/-- C1: for every one of the nine sub-channel message shapes and every
well-formed value `m` of that shape (the well-formedness predicates admit
all the boundary cases: empty HTLC signature lists, payout scripts up to
the maximum length the framing allows, all-zero and all-one-bit 32-byte
channel identifiers), decoding the encoding of `m` yields exactly `m` with
no bytes left over. -/
theorem C1_decode_encode_roundtrip :
    (∀ m : SubChannelOffer, m.wf → SubChannelOffer.read m.write = .ok (m, [])) ∧
    (∀ m : SubChannelAccept, m.wf → SubChannelAccept.read m.write = .ok (m, [])) ∧
    (∀ m : SubChannelConfirm, m.wf → SubChannelConfirm.read m.write = .ok (m, [])) ∧
    (∀ m : SubChannelFinalize, m.wf → SubChannelFinalize.read m.write = .ok (m, [])) ∧
    (∀ m : SubChannelCloseOffer, m.wf → SubChannelCloseOffer.read m.write = .ok (m, [])) ∧
    (∀ m : SubChannelCloseAccept, m.wf → SubChannelCloseAccept.read m.write = .ok (m, [])) ∧
    (∀ m : SubChannelCloseConfirm, m.wf → SubChannelCloseConfirm.read m.write = .ok (m, [])) ∧
    (∀ m : SubChannelCloseFinalize, m.wf → SubChannelCloseFinalize.read m.write = .ok (m, [])) ∧
    (∀ m : SubChannelCloseReject, m.wf → SubChannelCloseReject.read m.write = .ok (m, [])) :=
  ⟨fun _ hm => by simpa using offer_read_rt hm [],
   fun _ hm => by simpa using accept_read_rt hm [],
   fun _ hm => by simpa using confirm_read_rt hm [],
   fun _ hm => by simpa using finalize_read_rt hm [],
   fun _ hm => by simpa using closeOffer_read_rt hm [],
   fun _ hm => by simpa using closeAccept_read_rt hm [],
   fun _ hm => by simpa using closeConfirm_read_rt hm [],
   fun _ hm => by simpa using closeFinalize_read_rt hm [],
   fun _ hm => by simpa using closeReject_read_rt hm []⟩

theorem pkEx_wf : pkEx.wf := by decide

theorem sigEx_wf : sigEx.wf := by decide

theorem secEx_wf : secEx.wf := by decide

theorem adaptorEx_wf : adaptorEx.wf := by decide

theorem cidZero_wf : chanIdWf cidZero := by decide

theorem cidOnes_wf : chanIdWf cidOnes := by decide

theorem scriptEx_wf : scriptEx.wf := by decide

theorem ciEx_wf : ciEx.wf := by decide

theorem offerEx_wf : offerEx.wf :=
  ⟨cidZero_wf, pkEx_wf, pkEx_wf, pkEx_wf, pkEx_wf, ciEx_wf, pkEx_wf, pkEx_wf,
    pkEx_wf, pkEx_wf, scriptEx_wf, by decide, by decide, by decide, by decide,
    by decide, by decide⟩

theorem acceptEx_wf : acceptEx.wf :=
  ⟨cidOnes_wf, pkEx_wf, pkEx_wf, pkEx_wf, adaptorEx_wf, sigEx_wf, by decide,
    pkEx_wf, pkEx_wf, pkEx_wf, pkEx_wf, by decide, adaptorEx_wf, sigEx_wf,
    sigEx_wf, pkEx_wf, scriptEx_wf, by decide⟩

theorem confirmEx_wf : confirmEx.wf :=
  ⟨cidZero_wf, secEx_wf, pkEx_wf, adaptorEx_wf, sigEx_wf, by decide, by decide,
    adaptorEx_wf, sigEx_wf, sigEx_wf⟩

theorem finalizeEx_wf : finalizeEx.wf := ⟨cidZero_wf, secEx_wf, pkEx_wf⟩

theorem closeOfferEx_wf : closeOfferEx.wf := ⟨cidOnes_wf, by decide⟩

theorem closeAcceptEx_wf : closeAcceptEx.wf := ⟨cidZero_wf, sigEx_wf, by decide⟩

theorem closeConfirmEx_wf : closeConfirmEx.wf :=
  ⟨cidZero_wf, sigEx_wf, by decide, secEx_wf, secEx_wf, pkEx_wf⟩

theorem closeFinalizeEx_wf : closeFinalizeEx.wf :=
  ⟨cidOnes_wf, secEx_wf, secEx_wf, pkEx_wf⟩

theorem closeRejectEx_wf : closeRejectEx.wf := cidZero_wf

/-- Witness for C1: the round trip evaluated at concrete well-formed
messages of each of the nine shapes, covering an empty HTLC signature list
and all-zero and all-one-bit channel identifiers. -/
theorem C1_decode_encode_roundtrip_witness :
    SubChannelOffer.read offerEx.write = .ok (offerEx, []) ∧
    SubChannelAccept.read acceptEx.write = .ok (acceptEx, []) ∧
    SubChannelConfirm.read confirmEx.write = .ok (confirmEx, []) ∧
    SubChannelFinalize.read finalizeEx.write = .ok (finalizeEx, []) ∧
    SubChannelCloseOffer.read closeOfferEx.write = .ok (closeOfferEx, []) ∧
    SubChannelCloseAccept.read closeAcceptEx.write = .ok (closeAcceptEx, []) ∧
    SubChannelCloseConfirm.read closeConfirmEx.write = .ok (closeConfirmEx, []) ∧
    SubChannelCloseFinalize.read closeFinalizeEx.write = .ok (closeFinalizeEx, []) ∧
    SubChannelCloseReject.read closeRejectEx.write = .ok (closeRejectEx, []) :=
  ⟨C1_decode_encode_roundtrip.1 offerEx offerEx_wf,
   C1_decode_encode_roundtrip.2.1 acceptEx acceptEx_wf,
   C1_decode_encode_roundtrip.2.2.1 confirmEx confirmEx_wf,
   C1_decode_encode_roundtrip.2.2.2.1 finalizeEx finalizeEx_wf,
   C1_decode_encode_roundtrip.2.2.2.2.1 closeOfferEx closeOfferEx_wf,
   C1_decode_encode_roundtrip.2.2.2.2.2.1 closeAcceptEx closeAcceptEx_wf,
   C1_decode_encode_roundtrip.2.2.2.2.2.2.1 closeConfirmEx closeConfirmEx_wf,
   C1_decode_encode_roundtrip.2.2.2.2.2.2.2.1 closeFinalizeEx closeFinalizeEx_wf,
   C1_decode_encode_roundtrip.2.2.2.2.2.2.2.2 closeRejectEx closeRejectEx_wf⟩

/-- C3: a state machine initialized to `idle` accepts the sequence Offer,
Accept, Confirm, Finalize and ends in `finalized`; it rejects an Accept
received before any Offer; and it rejects a second Offer after reaching
`finalized`. -/
theorem C3_open_flow_sequencing :
    runMsgs .idle [.offer, .accept, .confirm, .finalize] = some .finalized ∧
    transition .idle .accept = none ∧
    runMsgs .idle [.offer, .accept, .confirm, .finalize, .offer] = none :=
  ⟨rfl, rfl, rfl⟩

/-- C4: from `finalized`, the close flow CloseOffer, CloseAccept,
CloseConfirm, CloseFinalize ends in the terminal `closeFinalized` state (no
message is accepted there), while CloseOffer followed by CloseReject ends
back at `finalized` with the sub-channel still active. -/
theorem C4_close_flow_branching :
    runMsgs .finalized [.closeOffer, .closeAccept, .closeConfirm, .closeFinalize] =
      some .closeFinalized ∧
    runMsgs .finalized [.closeOffer, .closeReject] = some .finalized ∧
    (∀ k, transition .closeFinalized k = none) :=
  ⟨rfl, rfl, fun k => by cases k <;> rfl⟩

/-- C5: `unwrap` on any numeric type tag outside the closed set of nine
defined sub-channel message tags fails with the unknown-message-type error,
for every payload byte sequence. -/
theorem C5_unknown_tag_rejected :
    ∀ (tag : Nat) (l : Bytes), tag ∉ subChannelMessageTypeIds →
      unwrap tag l = .error .unknownMessageType := by
  intro tag l h
  simp only [subChannelMessageTypeIds, List.mem_cons, List.not_mem_nil, or_false,
    not_or] at h
  obtain ⟨n1, n2, n3, n4, n5, n6, n7, n8, n9⟩ := h
  simp [unwrap, n1, n2, n3, n4, n5, n6, n7, n8, n9]

/-- Witness for C5: tag 0 with an arbitrary payload is rejected as an
unknown message type. -/
theorem C5_unknown_tag_rejected_witness :
    unwrap 0 [1, 2, 3] = .error .unknownMessageType :=
  C5_unknown_tag_rejected 0 [1, 2, 3] (by decide)

/-- C6: for every one of the nine message shapes and every well-formed value
`m`, decoding any strict prefix of the encoding of `m` fails with the
truncation error (`shortRead`), never succeeding on a partial parse. -/
theorem C6_truncation_rejected :
    (∀ (m : SubChannelOffer) p, m.wf → p <+: m.write → p ≠ m.write →
      SubChannelOffer.read p = .error .shortRead) ∧
    (∀ (m : SubChannelAccept) p, m.wf → p <+: m.write → p ≠ m.write →
      SubChannelAccept.read p = .error .shortRead) ∧
    (∀ (m : SubChannelConfirm) p, m.wf → p <+: m.write → p ≠ m.write →
      SubChannelConfirm.read p = .error .shortRead) ∧
    (∀ (m : SubChannelFinalize) p, m.wf → p <+: m.write → p ≠ m.write →
      SubChannelFinalize.read p = .error .shortRead) ∧
    (∀ (m : SubChannelCloseOffer) p, m.wf → p <+: m.write → p ≠ m.write →
      SubChannelCloseOffer.read p = .error .shortRead) ∧
    (∀ (m : SubChannelCloseAccept) p, m.wf → p <+: m.write → p ≠ m.write →
      SubChannelCloseAccept.read p = .error .shortRead) ∧
    (∀ (m : SubChannelCloseConfirm) p, m.wf → p <+: m.write → p ≠ m.write →
      SubChannelCloseConfirm.read p = .error .shortRead) ∧
    (∀ (m : SubChannelCloseFinalize) p, m.wf → p <+: m.write → p ≠ m.write →
      SubChannelCloseFinalize.read p = .error .shortRead) ∧
    (∀ (m : SubChannelCloseReject) p, m.wf → p <+: m.write → p ≠ m.write →
      SubChannelCloseReject.read p = .error .shortRead) :=
  ⟨fun m p hm hp hne => offer_read_short hm p hp hne,
   fun m p hm hp hne => accept_read_short hm p hp hne,
   fun m p hm hp hne => confirm_read_short hm p hp hne,
   fun m p hm hp hne => finalize_read_short hm p hp hne,
   fun m p hm hp hne => closeOffer_read_short hm p hp hne,
   fun m p hm hp hne => closeAccept_read_short hm p hp hne,
   fun m p hm hp hne => closeConfirm_read_short hm p hp hne,
   fun m p hm hp hne => closeFinalize_read_short hm p hp hne,
   fun m p hm hp hne => closeReject_read_short hm p hp hne⟩

/-- Witness for C6: a concrete 50-byte strict prefix of the 97-byte encoding
of a concrete `SubChannelFinalize` fails with the truncation error. -/
theorem C6_truncation_rejected_witness :
    SubChannelFinalize.read (finalizeEx.write.take 50) = .error .shortRead :=
  C6_truncation_rejected.2.2.2.1 finalizeEx (finalizeEx.write.take 50)
    finalizeEx_wf ⟨finalizeEx.write.drop 50, List.take_append_drop 50 _⟩
    (by decide)

/-- C7: the concrete `SubChannelCloseOffer` with the all-zero 32-byte
channel identifier and accept balance 500000 encodes to exactly 40 bytes
(32 for the identifier plus 8 for the balance), decoding those 40 bytes
returns the identical value with nothing left over, and decoding the first
39 bytes fails. -/
theorem C7_close_offer_forty_bytes :
    (SubChannelCloseOffer.write ⟨List.replicate 32 0, 500000⟩).length = 40 ∧
    SubChannelCloseOffer.read (SubChannelCloseOffer.write ⟨List.replicate 32 0, 500000⟩) =
      .ok (⟨List.replicate 32 0, 500000⟩, []) ∧
    SubChannelCloseOffer.read
      ((SubChannelCloseOffer.write ⟨List.replicate 32 0, 500000⟩).take 39) =
      .error .shortRead :=
  ⟨rfl, rfl, rfl⟩

/-- C8: a structurally valid message arriving in a session state that does
not expect it (a sequencing violation) is reported to the caller and the
session state is left exactly as it was before the message arrived. -/
theorem C8_violation_leaves_state_unchanged :
    ∀ (s : SubChannelPhase) (k : SubChannelMsgKind),
      transition s k = none → processMsg s k = (s, false) := by
  intro s k h
  simp [processMsg, h]

/-- Witness for C8: an Accept arriving in the `idle` state is rejected and
the state stays `idle`. -/
theorem C8_violation_leaves_state_unchanged_witness :
    processMsg .idle .accept = (.idle, false) :=
  C8_violation_leaves_state_unchanged .idle .accept rfl

/-- C10: in every one of the nine message shapes the channel identifier is
the first field written, so the first 32 bytes of the encoding are exactly
`channel_id`; a receiver can therefore read the channel identifier of any
sub-channel message without knowing its shape. -/
theorem C10_channel_id_first :
    (∀ m : SubChannelOffer, m.wf → m.write.take 32 = m.channel_id) ∧
    (∀ m : SubChannelAccept, m.wf → m.write.take 32 = m.channel_id) ∧
    (∀ m : SubChannelConfirm, m.wf → m.write.take 32 = m.channel_id) ∧
    (∀ m : SubChannelFinalize, m.wf → m.write.take 32 = m.channel_id) ∧
    (∀ m : SubChannelCloseOffer, m.wf → m.write.take 32 = m.channel_id) ∧
    (∀ m : SubChannelCloseAccept, m.wf → m.write.take 32 = m.channel_id) ∧
    (∀ m : SubChannelCloseConfirm, m.wf → m.write.take 32 = m.channel_id) ∧
    (∀ m : SubChannelCloseFinalize, m.wf → m.write.take 32 = m.channel_id) ∧
    (∀ m : SubChannelCloseReject, m.wf → m.write.take 32 = m.channel_id) :=
  ⟨fun m hm => by simp only [SubChannelOffer.write]; exact List.take_left' hm.1.1,
   fun m hm => by simp only [SubChannelAccept.write]; exact List.take_left' hm.1.1,
   fun m hm => by simp only [SubChannelConfirm.write]; exact List.take_left' hm.1.1,
   fun m hm => by simp only [SubChannelFinalize.write]; exact List.take_left' hm.1.1,
   fun m hm => by simp only [SubChannelCloseOffer.write]; exact List.take_left' hm.1.1,
   fun m hm => by simp only [SubChannelCloseAccept.write]; exact List.take_left' hm.1.1,
   fun m hm => by simp only [SubChannelCloseConfirm.write]; exact List.take_left' hm.1.1,
   fun m hm => by simp only [SubChannelCloseFinalize.write]; exact List.take_left' hm.1.1,
   fun m hm => by
     simp only [SubChannelCloseReject.write]
     rw [← hm.1]
     exact List.take_length m.channel_id⟩

/-- Witness for C10: the first 32 bytes of the encoding of a concrete
`SubChannelAccept` are its channel identifier. -/
theorem C10_channel_id_first_witness :
    acceptEx.write.take 32 = acceptEx.channel_id :=
  C10_channel_id_first.2.1 acceptEx acceptEx_wf

/-- C2: for each of the nine message shapes, encode writes the fields in
exactly the declared struct field order with no padding bytes between them;
decode reads the fields in that same order from that concatenation; and
decode returns the failure of the first field whose decoding fails (for
every field position: if all earlier fields decode from their encodings and
that field's decoder fails with some error, the message decoder returns
exactly that error). -/
theorem C2_field_order_first_failure :
    ((∀ m : SubChannelOffer, m.wf → m.write = m.channel_id ++ (m.revocation_basepoint.write ++ (m.publish_basepoint.write ++ (m.own_basepoint.write ++ (m.next_per_split_point.write ++ (m.contract_info.write ++ (m.channel_revocation_basepoint.write ++ (m.channel_publish_basepoint.write ++ (m.channel_own_basepoint.write ++ (m.channel_first_per_update_point.write ++ (m.payout_spk.write ++ (natToBE 8 m.payout_serial_id ++ (natToBE 8 m.offer_collateral ++ (natToBE 4 m.cet_locktime ++ (natToBE 4 m.refund_locktime ++ (natToBE 4 m.cet_nsequence ++ (natToBE 8 m.fee_rate_per_vbyte))))))))))))))))) ∧
     (∀ (m : SubChannelOffer) (rest : Bytes), m.wf → SubChannelOffer.read (m.channel_id ++ (m.revocation_basepoint.write ++ (m.publish_basepoint.write ++ (m.own_basepoint.write ++ (m.next_per_split_point.write ++ (m.contract_info.write ++ (m.channel_revocation_basepoint.write ++ (m.channel_publish_basepoint.write ++ (m.channel_own_basepoint.write ++ (m.channel_first_per_update_point.write ++ (m.payout_spk.write ++ (natToBE 8 m.payout_serial_id ++ (natToBE 8 m.offer_collateral ++ (natToBE 4 m.cet_locktime ++ (natToBE 4 m.refund_locktime ++ (natToBE 4 m.cet_nsequence ++ (natToBE 8 m.fee_rate_per_vbyte ++ (rest)))))))))))))))))) = .ok (m, rest)) ∧
     (∀ (l : Bytes) (e : DecodeError), readBytes 32 l = .error e → SubChannelOffer.read l = .error e) ∧
     (∀ (m : SubChannelOffer) (l : Bytes) (e : DecodeError), m.wf → PublicKey.read l = .error e → SubChannelOffer.read (m.channel_id ++ (l)) = .error e) ∧
     (∀ (m : SubChannelOffer) (l : Bytes) (e : DecodeError), m.wf → PublicKey.read l = .error e → SubChannelOffer.read (m.channel_id ++ (m.revocation_basepoint.write ++ (l))) = .error e) ∧
     (∀ (m : SubChannelOffer) (l : Bytes) (e : DecodeError), m.wf → PublicKey.read l = .error e → SubChannelOffer.read (m.channel_id ++ (m.revocation_basepoint.write ++ (m.publish_basepoint.write ++ (l)))) = .error e) ∧
     (∀ (m : SubChannelOffer) (l : Bytes) (e : DecodeError), m.wf → PublicKey.read l = .error e → SubChannelOffer.read (m.channel_id ++ (m.revocation_basepoint.write ++ (m.publish_basepoint.write ++ (m.own_basepoint.write ++ (l))))) = .error e) ∧
     (∀ (m : SubChannelOffer) (l : Bytes) (e : DecodeError), m.wf → ContractInfo.read l = .error e → SubChannelOffer.read (m.channel_id ++ (m.revocation_basepoint.write ++ (m.publish_basepoint.write ++ (m.own_basepoint.write ++ (m.next_per_split_point.write ++ (l)))))) = .error e) ∧
     (∀ (m : SubChannelOffer) (l : Bytes) (e : DecodeError), m.wf → PublicKey.read l = .error e → SubChannelOffer.read (m.channel_id ++ (m.revocation_basepoint.write ++ (m.publish_basepoint.write ++ (m.own_basepoint.write ++ (m.next_per_split_point.write ++ (m.contract_info.write ++ (l))))))) = .error e) ∧
     (∀ (m : SubChannelOffer) (l : Bytes) (e : DecodeError), m.wf → PublicKey.read l = .error e → SubChannelOffer.read (m.channel_id ++ (m.revocation_basepoint.write ++ (m.publish_basepoint.write ++ (m.own_basepoint.write ++ (m.next_per_split_point.write ++ (m.contract_info.write ++ (m.channel_revocation_basepoint.write ++ (l)))))))) = .error e) ∧
     (∀ (m : SubChannelOffer) (l : Bytes) (e : DecodeError), m.wf → PublicKey.read l = .error e → SubChannelOffer.read (m.channel_id ++ (m.revocation_basepoint.write ++ (m.publish_basepoint.write ++ (m.own_basepoint.write ++ (m.next_per_split_point.write ++ (m.contract_info.write ++ (m.channel_revocation_basepoint.write ++ (m.channel_publish_basepoint.write ++ (l))))))))) = .error e) ∧
     (∀ (m : SubChannelOffer) (l : Bytes) (e : DecodeError), m.wf → PublicKey.read l = .error e → SubChannelOffer.read (m.channel_id ++ (m.revocation_basepoint.write ++ (m.publish_basepoint.write ++ (m.own_basepoint.write ++ (m.next_per_split_point.write ++ (m.contract_info.write ++ (m.channel_revocation_basepoint.write ++ (m.channel_publish_basepoint.write ++ (m.channel_own_basepoint.write ++ (l)))))))))) = .error e) ∧
     (∀ (m : SubChannelOffer) (l : Bytes) (e : DecodeError), m.wf → Script.read l = .error e → SubChannelOffer.read (m.channel_id ++ (m.revocation_basepoint.write ++ (m.publish_basepoint.write ++ (m.own_basepoint.write ++ (m.next_per_split_point.write ++ (m.contract_info.write ++ (m.channel_revocation_basepoint.write ++ (m.channel_publish_basepoint.write ++ (m.channel_own_basepoint.write ++ (m.channel_first_per_update_point.write ++ (l))))))))))) = .error e) ∧
     (∀ (m : SubChannelOffer) (l : Bytes) (e : DecodeError), m.wf → readUInt 8 l = .error e → SubChannelOffer.read (m.channel_id ++ (m.revocation_basepoint.write ++ (m.publish_basepoint.write ++ (m.own_basepoint.write ++ (m.next_per_split_point.write ++ (m.contract_info.write ++ (m.channel_revocation_basepoint.write ++ (m.channel_publish_basepoint.write ++ (m.channel_own_basepoint.write ++ (m.channel_first_per_update_point.write ++ (m.payout_spk.write ++ (l)))))))))))) = .error e) ∧
     (∀ (m : SubChannelOffer) (l : Bytes) (e : DecodeError), m.wf → readUInt 8 l = .error e → SubChannelOffer.read (m.channel_id ++ (m.revocation_basepoint.write ++ (m.publish_basepoint.write ++ (m.own_basepoint.write ++ (m.next_per_split_point.write ++ (m.contract_info.write ++ (m.channel_revocation_basepoint.write ++ (m.channel_publish_basepoint.write ++ (m.channel_own_basepoint.write ++ (m.channel_first_per_update_point.write ++ (m.payout_spk.write ++ (natToBE 8 m.payout_serial_id ++ (l))))))))))))) = .error e) ∧
     (∀ (m : SubChannelOffer) (l : Bytes) (e : DecodeError), m.wf → readUInt 4 l = .error e → SubChannelOffer.read (m.channel_id ++ (m.revocation_basepoint.write ++ (m.publish_basepoint.write ++ (m.own_basepoint.write ++ (m.next_per_split_point.write ++ (m.contract_info.write ++ (m.channel_revocation_basepoint.write ++ (m.channel_publish_basepoint.write ++ (m.channel_own_basepoint.write ++ (m.channel_first_per_update_point.write ++ (m.payout_spk.write ++ (natToBE 8 m.payout_serial_id ++ (natToBE 8 m.offer_collateral ++ (l)))))))))))))) = .error e) ∧
     (∀ (m : SubChannelOffer) (l : Bytes) (e : DecodeError), m.wf → readUInt 4 l = .error e → SubChannelOffer.read (m.channel_id ++ (m.revocation_basepoint.write ++ (m.publish_basepoint.write ++ (m.own_basepoint.write ++ (m.next_per_split_point.write ++ (m.contract_info.write ++ (m.channel_revocation_basepoint.write ++ (m.channel_publish_basepoint.write ++ (m.channel_own_basepoint.write ++ (m.channel_first_per_update_point.write ++ (m.payout_spk.write ++ (natToBE 8 m.payout_serial_id ++ (natToBE 8 m.offer_collateral ++ (natToBE 4 m.cet_locktime ++ (l))))))))))))))) = .error e) ∧
     (∀ (m : SubChannelOffer) (l : Bytes) (e : DecodeError), m.wf → readUInt 4 l = .error e → SubChannelOffer.read (m.channel_id ++ (m.revocation_basepoint.write ++ (m.publish_basepoint.write ++ (m.own_basepoint.write ++ (m.next_per_split_point.write ++ (m.contract_info.write ++ (m.channel_revocation_basepoint.write ++ (m.channel_publish_basepoint.write ++ (m.channel_own_basepoint.write ++ (m.channel_first_per_update_point.write ++ (m.payout_spk.write ++ (natToBE 8 m.payout_serial_id ++ (natToBE 8 m.offer_collateral ++ (natToBE 4 m.cet_locktime ++ (natToBE 4 m.refund_locktime ++ (l)))))))))))))))) = .error e) ∧
     (∀ (m : SubChannelOffer) (l : Bytes) (e : DecodeError), m.wf → readUInt 8 l = .error e → SubChannelOffer.read (m.channel_id ++ (m.revocation_basepoint.write ++ (m.publish_basepoint.write ++ (m.own_basepoint.write ++ (m.next_per_split_point.write ++ (m.contract_info.write ++ (m.channel_revocation_basepoint.write ++ (m.channel_publish_basepoint.write ++ (m.channel_own_basepoint.write ++ (m.channel_first_per_update_point.write ++ (m.payout_spk.write ++ (natToBE 8 m.payout_serial_id ++ (natToBE 8 m.offer_collateral ++ (natToBE 4 m.cet_locktime ++ (natToBE 4 m.refund_locktime ++ (natToBE 4 m.cet_nsequence ++ (l))))))))))))))))) = .error e)) ∧
    ((∀ m : SubChannelAccept, m.wf → m.write = m.channel_id ++ (m.revocation_basepoint.write ++ (m.publish_basepoint.write ++ (m.own_basepoint.write ++ (m.split_adaptor_signature.write ++ (m.commit_signature.write ++ (writeSigs m.htlc_signatures ++ (m.first_per_split_point.write ++ (m.channel_revocation_basepoint.write ++ (m.channel_publish_basepoint.write ++ (m.channel_own_basepoint.write ++ (m.cet_adaptor_signatures.write ++ (m.buffer_adaptor_signature.write ++ (m.refund_signature.write ++ (m.ln_glue_signature.write ++ (m.first_per_update_point.write ++ (m.payout_spk.write ++ (natToBE 8 m.payout_serial_id)))))))))))))))))) ∧
     (∀ (m : SubChannelAccept) (rest : Bytes), m.wf → SubChannelAccept.read (m.channel_id ++ (m.revocation_basepoint.write ++ (m.publish_basepoint.write ++ (m.own_basepoint.write ++ (m.split_adaptor_signature.write ++ (m.commit_signature.write ++ (writeSigs m.htlc_signatures ++ (m.first_per_split_point.write ++ (m.channel_revocation_basepoint.write ++ (m.channel_publish_basepoint.write ++ (m.channel_own_basepoint.write ++ (m.cet_adaptor_signatures.write ++ (m.buffer_adaptor_signature.write ++ (m.refund_signature.write ++ (m.ln_glue_signature.write ++ (m.first_per_update_point.write ++ (m.payout_spk.write ++ (natToBE 8 m.payout_serial_id ++ (rest))))))))))))))))))) = .ok (m, rest)) ∧
     (∀ (l : Bytes) (e : DecodeError), readBytes 32 l = .error e → SubChannelAccept.read l = .error e) ∧
     (∀ (m : SubChannelAccept) (l : Bytes) (e : DecodeError), m.wf → PublicKey.read l = .error e → SubChannelAccept.read (m.channel_id ++ (l)) = .error e) ∧
     (∀ (m : SubChannelAccept) (l : Bytes) (e : DecodeError), m.wf → PublicKey.read l = .error e → SubChannelAccept.read (m.channel_id ++ (m.revocation_basepoint.write ++ (l))) = .error e) ∧
     (∀ (m : SubChannelAccept) (l : Bytes) (e : DecodeError), m.wf → PublicKey.read l = .error e → SubChannelAccept.read (m.channel_id ++ (m.revocation_basepoint.write ++ (m.publish_basepoint.write ++ (l)))) = .error e) ∧
     (∀ (m : SubChannelAccept) (l : Bytes) (e : DecodeError), m.wf → EcdsaAdaptorSignature.read l = .error e → SubChannelAccept.read (m.channel_id ++ (m.revocation_basepoint.write ++ (m.publish_basepoint.write ++ (m.own_basepoint.write ++ (l))))) = .error e) ∧
     (∀ (m : SubChannelAccept) (l : Bytes) (e : DecodeError), m.wf → Signature.read l = .error e → SubChannelAccept.read (m.channel_id ++ (m.revocation_basepoint.write ++ (m.publish_basepoint.write ++ (m.own_basepoint.write ++ (m.split_adaptor_signature.write ++ (l)))))) = .error e) ∧
     (∀ (m : SubChannelAccept) (l : Bytes) (e : DecodeError), m.wf → readSigs l = .error e → SubChannelAccept.read (m.channel_id ++ (m.revocation_basepoint.write ++ (m.publish_basepoint.write ++ (m.own_basepoint.write ++ (m.split_adaptor_signature.write ++ (m.commit_signature.write ++ (l))))))) = .error e) ∧
     (∀ (m : SubChannelAccept) (l : Bytes) (e : DecodeError), m.wf → PublicKey.read l = .error e → SubChannelAccept.read (m.channel_id ++ (m.revocation_basepoint.write ++ (m.publish_basepoint.write ++ (m.own_basepoint.write ++ (m.split_adaptor_signature.write ++ (m.commit_signature.write ++ (writeSigs m.htlc_signatures ++ (l)))))))) = .error e) ∧
     (∀ (m : SubChannelAccept) (l : Bytes) (e : DecodeError), m.wf → PublicKey.read l = .error e → SubChannelAccept.read (m.channel_id ++ (m.revocation_basepoint.write ++ (m.publish_basepoint.write ++ (m.own_basepoint.write ++ (m.split_adaptor_signature.write ++ (m.commit_signature.write ++ (writeSigs m.htlc_signatures ++ (m.first_per_split_point.write ++ (l))))))))) = .error e) ∧
     (∀ (m : SubChannelAccept) (l : Bytes) (e : DecodeError), m.wf → PublicKey.read l = .error e → SubChannelAccept.read (m.channel_id ++ (m.revocation_basepoint.write ++ (m.publish_basepoint.write ++ (m.own_basepoint.write ++ (m.split_adaptor_signature.write ++ (m.commit_signature.write ++ (writeSigs m.htlc_signatures ++ (m.first_per_split_point.write ++ (m.channel_revocation_basepoint.write ++ (l)))))))))) = .error e) ∧
     (∀ (m : SubChannelAccept) (l : Bytes) (e : DecodeError), m.wf → PublicKey.read l = .error e → SubChannelAccept.read (m.channel_id ++ (m.revocation_basepoint.write ++ (m.publish_basepoint.write ++ (m.own_basepoint.write ++ (m.split_adaptor_signature.write ++ (m.commit_signature.write ++ (writeSigs m.htlc_signatures ++ (m.first_per_split_point.write ++ (m.channel_revocation_basepoint.write ++ (m.channel_publish_basepoint.write ++ (l))))))))))) = .error e) ∧
     (∀ (m : SubChannelAccept) (l : Bytes) (e : DecodeError), m.wf → CetAdaptorSignatures.read l = .error e → SubChannelAccept.read (m.channel_id ++ (m.revocation_basepoint.write ++ (m.publish_basepoint.write ++ (m.own_basepoint.write ++ (m.split_adaptor_signature.write ++ (m.commit_signature.write ++ (writeSigs m.htlc_signatures ++ (m.first_per_split_point.write ++ (m.channel_revocation_basepoint.write ++ (m.channel_publish_basepoint.write ++ (m.channel_own_basepoint.write ++ (l)))))))))))) = .error e) ∧
     (∀ (m : SubChannelAccept) (l : Bytes) (e : DecodeError), m.wf → EcdsaAdaptorSignature.read l = .error e → SubChannelAccept.read (m.channel_id ++ (m.revocation_basepoint.write ++ (m.publish_basepoint.write ++ (m.own_basepoint.write ++ (m.split_adaptor_signature.write ++ (m.commit_signature.write ++ (writeSigs m.htlc_signatures ++ (m.first_per_split_point.write ++ (m.channel_revocation_basepoint.write ++ (m.channel_publish_basepoint.write ++ (m.channel_own_basepoint.write ++ (m.cet_adaptor_signatures.write ++ (l))))))))))))) = .error e) ∧
     (∀ (m : SubChannelAccept) (l : Bytes) (e : DecodeError), m.wf → Signature.read l = .error e → SubChannelAccept.read (m.channel_id ++ (m.revocation_basepoint.write ++ (m.publish_basepoint.write ++ (m.own_basepoint.write ++ (m.split_adaptor_signature.write ++ (m.commit_signature.write ++ (writeSigs m.htlc_signatures ++ (m.first_per_split_point.write ++ (m.channel_revocation_basepoint.write ++ (m.channel_publish_basepoint.write ++ (m.channel_own_basepoint.write ++ (m.cet_adaptor_signatures.write ++ (m.buffer_adaptor_signature.write ++ (l)))))))))))))) = .error e) ∧
     (∀ (m : SubChannelAccept) (l : Bytes) (e : DecodeError), m.wf → Signature.read l = .error e → SubChannelAccept.read (m.channel_id ++ (m.revocation_basepoint.write ++ (m.publish_basepoint.write ++ (m.own_basepoint.write ++ (m.split_adaptor_signature.write ++ (m.commit_signature.write ++ (writeSigs m.htlc_signatures ++ (m.first_per_split_point.write ++ (m.channel_revocation_basepoint.write ++ (m.channel_publish_basepoint.write ++ (m.channel_own_basepoint.write ++ (m.cet_adaptor_signatures.write ++ (m.buffer_adaptor_signature.write ++ (m.refund_signature.write ++ (l))))))))))))))) = .error e) ∧
     (∀ (m : SubChannelAccept) (l : Bytes) (e : DecodeError), m.wf → PublicKey.read l = .error e → SubChannelAccept.read (m.channel_id ++ (m.revocation_basepoint.write ++ (m.publish_basepoint.write ++ (m.own_basepoint.write ++ (m.split_adaptor_signature.write ++ (m.commit_signature.write ++ (writeSigs m.htlc_signatures ++ (m.first_per_split_point.write ++ (m.channel_revocation_basepoint.write ++ (m.channel_publish_basepoint.write ++ (m.channel_own_basepoint.write ++ (m.cet_adaptor_signatures.write ++ (m.buffer_adaptor_signature.write ++ (m.refund_signature.write ++ (m.ln_glue_signature.write ++ (l)))))))))))))))) = .error e) ∧
     (∀ (m : SubChannelAccept) (l : Bytes) (e : DecodeError), m.wf → Script.read l = .error e → SubChannelAccept.read (m.channel_id ++ (m.revocation_basepoint.write ++ (m.publish_basepoint.write ++ (m.own_basepoint.write ++ (m.split_adaptor_signature.write ++ (m.commit_signature.write ++ (writeSigs m.htlc_signatures ++ (m.first_per_split_point.write ++ (m.channel_revocation_basepoint.write ++ (m.channel_publish_basepoint.write ++ (m.channel_own_basepoint.write ++ (m.cet_adaptor_signatures.write ++ (m.buffer_adaptor_signature.write ++ (m.refund_signature.write ++ (m.ln_glue_signature.write ++ (m.first_per_update_point.write ++ (l))))))))))))))))) = .error e) ∧
     (∀ (m : SubChannelAccept) (l : Bytes) (e : DecodeError), m.wf → readUInt 8 l = .error e → SubChannelAccept.read (m.channel_id ++ (m.revocation_basepoint.write ++ (m.publish_basepoint.write ++ (m.own_basepoint.write ++ (m.split_adaptor_signature.write ++ (m.commit_signature.write ++ (writeSigs m.htlc_signatures ++ (m.first_per_split_point.write ++ (m.channel_revocation_basepoint.write ++ (m.channel_publish_basepoint.write ++ (m.channel_own_basepoint.write ++ (m.cet_adaptor_signatures.write ++ (m.buffer_adaptor_signature.write ++ (m.refund_signature.write ++ (m.ln_glue_signature.write ++ (m.first_per_update_point.write ++ (m.payout_spk.write ++ (l)))))))))))))))))) = .error e)) ∧
    ((∀ m : SubChannelConfirm, m.wf → m.write = m.channel_id ++ (m.per_commitment_secret.write ++ (m.next_per_commitment_point.write ++ (m.split_adaptor_signature.write ++ (m.commit_signature.write ++ (writeSigs m.htlc_signatures ++ (m.cet_adaptor_signatures.write ++ (m.buffer_adaptor_signature.write ++ (m.refund_signature.write ++ (m.ln_glue_signature.write)))))))))) ∧
     (∀ (m : SubChannelConfirm) (rest : Bytes), m.wf → SubChannelConfirm.read (m.channel_id ++ (m.per_commitment_secret.write ++ (m.next_per_commitment_point.write ++ (m.split_adaptor_signature.write ++ (m.commit_signature.write ++ (writeSigs m.htlc_signatures ++ (m.cet_adaptor_signatures.write ++ (m.buffer_adaptor_signature.write ++ (m.refund_signature.write ++ (m.ln_glue_signature.write ++ (rest))))))))))) = .ok (m, rest)) ∧
     (∀ (l : Bytes) (e : DecodeError), readBytes 32 l = .error e → SubChannelConfirm.read l = .error e) ∧
     (∀ (m : SubChannelConfirm) (l : Bytes) (e : DecodeError), m.wf → SecretKey.read l = .error e → SubChannelConfirm.read (m.channel_id ++ (l)) = .error e) ∧
     (∀ (m : SubChannelConfirm) (l : Bytes) (e : DecodeError), m.wf → PublicKey.read l = .error e → SubChannelConfirm.read (m.channel_id ++ (m.per_commitment_secret.write ++ (l))) = .error e) ∧
     (∀ (m : SubChannelConfirm) (l : Bytes) (e : DecodeError), m.wf → EcdsaAdaptorSignature.read l = .error e → SubChannelConfirm.read (m.channel_id ++ (m.per_commitment_secret.write ++ (m.next_per_commitment_point.write ++ (l)))) = .error e) ∧
     (∀ (m : SubChannelConfirm) (l : Bytes) (e : DecodeError), m.wf → Signature.read l = .error e → SubChannelConfirm.read (m.channel_id ++ (m.per_commitment_secret.write ++ (m.next_per_commitment_point.write ++ (m.split_adaptor_signature.write ++ (l))))) = .error e) ∧
     (∀ (m : SubChannelConfirm) (l : Bytes) (e : DecodeError), m.wf → readSigs l = .error e → SubChannelConfirm.read (m.channel_id ++ (m.per_commitment_secret.write ++ (m.next_per_commitment_point.write ++ (m.split_adaptor_signature.write ++ (m.commit_signature.write ++ (l)))))) = .error e) ∧
     (∀ (m : SubChannelConfirm) (l : Bytes) (e : DecodeError), m.wf → CetAdaptorSignatures.read l = .error e → SubChannelConfirm.read (m.channel_id ++ (m.per_commitment_secret.write ++ (m.next_per_commitment_point.write ++ (m.split_adaptor_signature.write ++ (m.commit_signature.write ++ (writeSigs m.htlc_signatures ++ (l))))))) = .error e) ∧
     (∀ (m : SubChannelConfirm) (l : Bytes) (e : DecodeError), m.wf → EcdsaAdaptorSignature.read l = .error e → SubChannelConfirm.read (m.channel_id ++ (m.per_commitment_secret.write ++ (m.next_per_commitment_point.write ++ (m.split_adaptor_signature.write ++ (m.commit_signature.write ++ (writeSigs m.htlc_signatures ++ (m.cet_adaptor_signatures.write ++ (l)))))))) = .error e) ∧
     (∀ (m : SubChannelConfirm) (l : Bytes) (e : DecodeError), m.wf → Signature.read l = .error e → SubChannelConfirm.read (m.channel_id ++ (m.per_commitment_secret.write ++ (m.next_per_commitment_point.write ++ (m.split_adaptor_signature.write ++ (m.commit_signature.write ++ (writeSigs m.htlc_signatures ++ (m.cet_adaptor_signatures.write ++ (m.buffer_adaptor_signature.write ++ (l))))))))) = .error e) ∧
     (∀ (m : SubChannelConfirm) (l : Bytes) (e : DecodeError), m.wf → Signature.read l = .error e → SubChannelConfirm.read (m.channel_id ++ (m.per_commitment_secret.write ++ (m.next_per_commitment_point.write ++ (m.split_adaptor_signature.write ++ (m.commit_signature.write ++ (writeSigs m.htlc_signatures ++ (m.cet_adaptor_signatures.write ++ (m.buffer_adaptor_signature.write ++ (m.refund_signature.write ++ (l)))))))))) = .error e)) ∧
    ((∀ m : SubChannelFinalize, m.wf → m.write = m.channel_id ++ (m.per_commitment_secret.write ++ (m.next_per_commitment_point.write))) ∧
     (∀ (m : SubChannelFinalize) (rest : Bytes), m.wf → SubChannelFinalize.read (m.channel_id ++ (m.per_commitment_secret.write ++ (m.next_per_commitment_point.write ++ (rest)))) = .ok (m, rest)) ∧
     (∀ (l : Bytes) (e : DecodeError), readBytes 32 l = .error e → SubChannelFinalize.read l = .error e) ∧
     (∀ (m : SubChannelFinalize) (l : Bytes) (e : DecodeError), m.wf → SecretKey.read l = .error e → SubChannelFinalize.read (m.channel_id ++ (l)) = .error e) ∧
     (∀ (m : SubChannelFinalize) (l : Bytes) (e : DecodeError), m.wf → PublicKey.read l = .error e → SubChannelFinalize.read (m.channel_id ++ (m.per_commitment_secret.write ++ (l))) = .error e)) ∧
    ((∀ m : SubChannelCloseOffer, m.wf → m.write = m.channel_id ++ (natToBE 8 m.accept_balance)) ∧
     (∀ (m : SubChannelCloseOffer) (rest : Bytes), m.wf → SubChannelCloseOffer.read (m.channel_id ++ (natToBE 8 m.accept_balance ++ (rest))) = .ok (m, rest)) ∧
     (∀ (l : Bytes) (e : DecodeError), readBytes 32 l = .error e → SubChannelCloseOffer.read l = .error e) ∧
     (∀ (m : SubChannelCloseOffer) (l : Bytes) (e : DecodeError), m.wf → readUInt 8 l = .error e → SubChannelCloseOffer.read (m.channel_id ++ (l)) = .error e)) ∧
    ((∀ m : SubChannelCloseAccept, m.wf → m.write = m.channel_id ++ (m.commit_signature.write ++ (writeSigs m.htlc_signatures))) ∧
     (∀ (m : SubChannelCloseAccept) (rest : Bytes), m.wf → SubChannelCloseAccept.read (m.channel_id ++ (m.commit_signature.write ++ (writeSigs m.htlc_signatures ++ (rest)))) = .ok (m, rest)) ∧
     (∀ (l : Bytes) (e : DecodeError), readBytes 32 l = .error e → SubChannelCloseAccept.read l = .error e) ∧
     (∀ (m : SubChannelCloseAccept) (l : Bytes) (e : DecodeError), m.wf → Signature.read l = .error e → SubChannelCloseAccept.read (m.channel_id ++ (l)) = .error e) ∧
     (∀ (m : SubChannelCloseAccept) (l : Bytes) (e : DecodeError), m.wf → readSigs l = .error e → SubChannelCloseAccept.read (m.channel_id ++ (m.commit_signature.write ++ (l))) = .error e)) ∧
    ((∀ m : SubChannelCloseConfirm, m.wf → m.write = m.channel_id ++ (m.commit_signature.write ++ (writeSigs m.htlc_signatures ++ (m.split_revocation_secret.write ++ (m.commit_revocation_secret.write ++ (m.next_per_commitment_point.write)))))) ∧
     (∀ (m : SubChannelCloseConfirm) (rest : Bytes), m.wf → SubChannelCloseConfirm.read (m.channel_id ++ (m.commit_signature.write ++ (writeSigs m.htlc_signatures ++ (m.split_revocation_secret.write ++ (m.commit_revocation_secret.write ++ (m.next_per_commitment_point.write ++ (rest))))))) = .ok (m, rest)) ∧
     (∀ (l : Bytes) (e : DecodeError), readBytes 32 l = .error e → SubChannelCloseConfirm.read l = .error e) ∧
     (∀ (m : SubChannelCloseConfirm) (l : Bytes) (e : DecodeError), m.wf → Signature.read l = .error e → SubChannelCloseConfirm.read (m.channel_id ++ (l)) = .error e) ∧
     (∀ (m : SubChannelCloseConfirm) (l : Bytes) (e : DecodeError), m.wf → readSigs l = .error e → SubChannelCloseConfirm.read (m.channel_id ++ (m.commit_signature.write ++ (l))) = .error e) ∧
     (∀ (m : SubChannelCloseConfirm) (l : Bytes) (e : DecodeError), m.wf → SecretKey.read l = .error e → SubChannelCloseConfirm.read (m.channel_id ++ (m.commit_signature.write ++ (writeSigs m.htlc_signatures ++ (l)))) = .error e) ∧
     (∀ (m : SubChannelCloseConfirm) (l : Bytes) (e : DecodeError), m.wf → SecretKey.read l = .error e → SubChannelCloseConfirm.read (m.channel_id ++ (m.commit_signature.write ++ (writeSigs m.htlc_signatures ++ (m.split_revocation_secret.write ++ (l))))) = .error e) ∧
     (∀ (m : SubChannelCloseConfirm) (l : Bytes) (e : DecodeError), m.wf → PublicKey.read l = .error e → SubChannelCloseConfirm.read (m.channel_id ++ (m.commit_signature.write ++ (writeSigs m.htlc_signatures ++ (m.split_revocation_secret.write ++ (m.commit_revocation_secret.write ++ (l)))))) = .error e)) ∧
    ((∀ m : SubChannelCloseFinalize, m.wf → m.write = m.channel_id ++ (m.split_revocation_secret.write ++ (m.commit_revocation_secret.write ++ (m.next_per_commitment_point.write)))) ∧
     (∀ (m : SubChannelCloseFinalize) (rest : Bytes), m.wf → SubChannelCloseFinalize.read (m.channel_id ++ (m.split_revocation_secret.write ++ (m.commit_revocation_secret.write ++ (m.next_per_commitment_point.write ++ (rest))))) = .ok (m, rest)) ∧
     (∀ (l : Bytes) (e : DecodeError), readBytes 32 l = .error e → SubChannelCloseFinalize.read l = .error e) ∧
     (∀ (m : SubChannelCloseFinalize) (l : Bytes) (e : DecodeError), m.wf → SecretKey.read l = .error e → SubChannelCloseFinalize.read (m.channel_id ++ (l)) = .error e) ∧
     (∀ (m : SubChannelCloseFinalize) (l : Bytes) (e : DecodeError), m.wf → SecretKey.read l = .error e → SubChannelCloseFinalize.read (m.channel_id ++ (m.split_revocation_secret.write ++ (l))) = .error e) ∧
     (∀ (m : SubChannelCloseFinalize) (l : Bytes) (e : DecodeError), m.wf → PublicKey.read l = .error e → SubChannelCloseFinalize.read (m.channel_id ++ (m.split_revocation_secret.write ++ (m.commit_revocation_secret.write ++ (l)))) = .error e)) ∧
    ((∀ m : SubChannelCloseReject, m.wf → m.write = m.channel_id) ∧
     (∀ (m : SubChannelCloseReject) (rest : Bytes), m.wf → SubChannelCloseReject.read (m.channel_id ++ (rest)) = .ok (m, rest)) ∧
     (∀ (l : Bytes) (e : DecodeError), readBytes 32 l = .error e → SubChannelCloseReject.read l = .error e)) :=
  ⟨⟨fun m _ => rfl,
     fun m rest hm => by
       have hx := offer_read_rt hm rest
       simpa only [SubChannelOffer.write, List.append_assoc] using hx,
     fun l e h => andThen_error h,
     fun m l e hm h => by
       obtain ⟨hc, h2, h3, h4, h5, h6, h7, h8, h9, h10, h11, h12, h13, h14, h15, h16, h17⟩ := hm
       simp only [SubChannelOffer.read, andThen_chan hc.1]
       exact andThen_error h,
     fun m l e hm h => by
       obtain ⟨hc, h2, h3, h4, h5, h6, h7, h8, h9, h10, h11, h12, h13, h14, h15, h16, h17⟩ := hm
       simp only [SubChannelOffer.read, andThen_chan hc.1, andThen_pk h2]
       exact andThen_error h,
     fun m l e hm h => by
       obtain ⟨hc, h2, h3, h4, h5, h6, h7, h8, h9, h10, h11, h12, h13, h14, h15, h16, h17⟩ := hm
       simp only [SubChannelOffer.read, andThen_chan hc.1, andThen_pk h2, andThen_pk h3]
       exact andThen_error h,
     fun m l e hm h => by
       obtain ⟨hc, h2, h3, h4, h5, h6, h7, h8, h9, h10, h11, h12, h13, h14, h15, h16, h17⟩ := hm
       simp only [SubChannelOffer.read, andThen_chan hc.1, andThen_pk h2, andThen_pk h3, andThen_pk h4]
       exact andThen_error h,
     fun m l e hm h => by
       obtain ⟨hc, h2, h3, h4, h5, h6, h7, h8, h9, h10, h11, h12, h13, h14, h15, h16, h17⟩ := hm
       simp only [SubChannelOffer.read, andThen_chan hc.1, andThen_pk h2, andThen_pk h3, andThen_pk h4, andThen_pk h5]
       exact andThen_error h,
     fun m l e hm h => by
       obtain ⟨hc, h2, h3, h4, h5, h6, h7, h8, h9, h10, h11, h12, h13, h14, h15, h16, h17⟩ := hm
       simp only [SubChannelOffer.read, andThen_chan hc.1, andThen_pk h2, andThen_pk h3, andThen_pk h4, andThen_pk h5, andThen_ci h6]
       exact andThen_error h,
     fun m l e hm h => by
       obtain ⟨hc, h2, h3, h4, h5, h6, h7, h8, h9, h10, h11, h12, h13, h14, h15, h16, h17⟩ := hm
       simp only [SubChannelOffer.read, andThen_chan hc.1, andThen_pk h2, andThen_pk h3, andThen_pk h4, andThen_pk h5, andThen_ci h6, andThen_pk h7]
       exact andThen_error h,
     fun m l e hm h => by
       obtain ⟨hc, h2, h3, h4, h5, h6, h7, h8, h9, h10, h11, h12, h13, h14, h15, h16, h17⟩ := hm
       simp only [SubChannelOffer.read, andThen_chan hc.1, andThen_pk h2, andThen_pk h3, andThen_pk h4, andThen_pk h5, andThen_ci h6, andThen_pk h7, andThen_pk h8]
       exact andThen_error h,
     fun m l e hm h => by
       obtain ⟨hc, h2, h3, h4, h5, h6, h7, h8, h9, h10, h11, h12, h13, h14, h15, h16, h17⟩ := hm
       simp only [SubChannelOffer.read, andThen_chan hc.1, andThen_pk h2, andThen_pk h3, andThen_pk h4, andThen_pk h5, andThen_ci h6, andThen_pk h7, andThen_pk h8, andThen_pk h9]
       exact andThen_error h,
     fun m l e hm h => by
       obtain ⟨hc, h2, h3, h4, h5, h6, h7, h8, h9, h10, h11, h12, h13, h14, h15, h16, h17⟩ := hm
       simp only [SubChannelOffer.read, andThen_chan hc.1, andThen_pk h2, andThen_pk h3, andThen_pk h4, andThen_pk h5, andThen_ci h6, andThen_pk h7, andThen_pk h8, andThen_pk h9, andThen_pk h10]
       exact andThen_error h,
     fun m l e hm h => by
       obtain ⟨hc, h2, h3, h4, h5, h6, h7, h8, h9, h10, h11, h12, h13, h14, h15, h16, h17⟩ := hm
       simp only [SubChannelOffer.read, andThen_chan hc.1, andThen_pk h2, andThen_pk h3, andThen_pk h4, andThen_pk h5, andThen_ci h6, andThen_pk h7, andThen_pk h8, andThen_pk h9, andThen_pk h10, andThen_script h11]
       exact andThen_error h,
     fun m l e hm h => by
       obtain ⟨hc, h2, h3, h4, h5, h6, h7, h8, h9, h10, h11, h12, h13, h14, h15, h16, h17⟩ := hm
       simp only [SubChannelOffer.read, andThen_chan hc.1, andThen_pk h2, andThen_pk h3, andThen_pk h4, andThen_pk h5, andThen_ci h6, andThen_pk h7, andThen_pk h8, andThen_pk h9, andThen_pk h10, andThen_script h11, andThen_uint h12]
       exact andThen_error h,
     fun m l e hm h => by
       obtain ⟨hc, h2, h3, h4, h5, h6, h7, h8, h9, h10, h11, h12, h13, h14, h15, h16, h17⟩ := hm
       simp only [SubChannelOffer.read, andThen_chan hc.1, andThen_pk h2, andThen_pk h3, andThen_pk h4, andThen_pk h5, andThen_ci h6, andThen_pk h7, andThen_pk h8, andThen_pk h9, andThen_pk h10, andThen_script h11, andThen_uint h12, andThen_uint h13]
       exact andThen_error h,
     fun m l e hm h => by
       obtain ⟨hc, h2, h3, h4, h5, h6, h7, h8, h9, h10, h11, h12, h13, h14, h15, h16, h17⟩ := hm
       simp only [SubChannelOffer.read, andThen_chan hc.1, andThen_pk h2, andThen_pk h3, andThen_pk h4, andThen_pk h5, andThen_ci h6, andThen_pk h7, andThen_pk h8, andThen_pk h9, andThen_pk h10, andThen_script h11, andThen_uint h12, andThen_uint h13, andThen_uint h14]
       exact andThen_error h,
     fun m l e hm h => by
       obtain ⟨hc, h2, h3, h4, h5, h6, h7, h8, h9, h10, h11, h12, h13, h14, h15, h16, h17⟩ := hm
       simp only [SubChannelOffer.read, andThen_chan hc.1, andThen_pk h2, andThen_pk h3, andThen_pk h4, andThen_pk h5, andThen_ci h6, andThen_pk h7, andThen_pk h8, andThen_pk h9, andThen_pk h10, andThen_script h11, andThen_uint h12, andThen_uint h13, andThen_uint h14, andThen_uint h15]
       exact andThen_error h,
     fun m l e hm h => by
       obtain ⟨hc, h2, h3, h4, h5, h6, h7, h8, h9, h10, h11, h12, h13, h14, h15, h16, h17⟩ := hm
       simp only [SubChannelOffer.read, andThen_chan hc.1, andThen_pk h2, andThen_pk h3, andThen_pk h4, andThen_pk h5, andThen_ci h6, andThen_pk h7, andThen_pk h8, andThen_pk h9, andThen_pk h10, andThen_script h11, andThen_uint h12, andThen_uint h13, andThen_uint h14, andThen_uint h15, andThen_uint h16]
       exact andThen_error h⟩,
   ⟨fun m _ => rfl,
     fun m rest hm => by
       have hx := accept_read_rt hm rest
       simpa only [SubChannelAccept.write, List.append_assoc] using hx,
     fun l e h => andThen_error h,
     fun m l e hm h => by
       obtain ⟨hc, h2, h3, h4, h5, h6, h7, h8, h9, h10, h11, h12, h13, h14, h15, h16, h17, h18⟩ := hm
       simp only [SubChannelAccept.read, andThen_chan hc.1]
       exact andThen_error h,
     fun m l e hm h => by
       obtain ⟨hc, h2, h3, h4, h5, h6, h7, h8, h9, h10, h11, h12, h13, h14, h15, h16, h17, h18⟩ := hm
       simp only [SubChannelAccept.read, andThen_chan hc.1, andThen_pk h2]
       exact andThen_error h,
     fun m l e hm h => by
       obtain ⟨hc, h2, h3, h4, h5, h6, h7, h8, h9, h10, h11, h12, h13, h14, h15, h16, h17, h18⟩ := hm
       simp only [SubChannelAccept.read, andThen_chan hc.1, andThen_pk h2, andThen_pk h3]
       exact andThen_error h,
     fun m l e hm h => by
       obtain ⟨hc, h2, h3, h4, h5, h6, h7, h8, h9, h10, h11, h12, h13, h14, h15, h16, h17, h18⟩ := hm
       simp only [SubChannelAccept.read, andThen_chan hc.1, andThen_pk h2, andThen_pk h3, andThen_pk h4]
       exact andThen_error h,
     fun m l e hm h => by
       obtain ⟨hc, h2, h3, h4, h5, h6, h7, h8, h9, h10, h11, h12, h13, h14, h15, h16, h17, h18⟩ := hm
       simp only [SubChannelAccept.read, andThen_chan hc.1, andThen_pk h2, andThen_pk h3, andThen_pk h4, andThen_adaptor h5]
       exact andThen_error h,
     fun m l e hm h => by
       obtain ⟨hc, h2, h3, h4, h5, h6, h7, h8, h9, h10, h11, h12, h13, h14, h15, h16, h17, h18⟩ := hm
       simp only [SubChannelAccept.read, andThen_chan hc.1, andThen_pk h2, andThen_pk h3, andThen_pk h4, andThen_adaptor h5, andThen_sig h6]
       exact andThen_error h,
     fun m l e hm h => by
       obtain ⟨hc, h2, h3, h4, h5, h6, h7, h8, h9, h10, h11, h12, h13, h14, h15, h16, h17, h18⟩ := hm
       simp only [SubChannelAccept.read, andThen_chan hc.1, andThen_pk h2, andThen_pk h3, andThen_pk h4, andThen_adaptor h5, andThen_sig h6, andThen_sigs h7]
       exact andThen_error h,
     fun m l e hm h => by
       obtain ⟨hc, h2, h3, h4, h5, h6, h7, h8, h9, h10, h11, h12, h13, h14, h15, h16, h17, h18⟩ := hm
       simp only [SubChannelAccept.read, andThen_chan hc.1, andThen_pk h2, andThen_pk h3, andThen_pk h4, andThen_adaptor h5, andThen_sig h6, andThen_sigs h7, andThen_pk h8]
       exact andThen_error h,
     fun m l e hm h => by
       obtain ⟨hc, h2, h3, h4, h5, h6, h7, h8, h9, h10, h11, h12, h13, h14, h15, h16, h17, h18⟩ := hm
       simp only [SubChannelAccept.read, andThen_chan hc.1, andThen_pk h2, andThen_pk h3, andThen_pk h4, andThen_adaptor h5, andThen_sig h6, andThen_sigs h7, andThen_pk h8, andThen_pk h9]
       exact andThen_error h,
     fun m l e hm h => by
       obtain ⟨hc, h2, h3, h4, h5, h6, h7, h8, h9, h10, h11, h12, h13, h14, h15, h16, h17, h18⟩ := hm
       simp only [SubChannelAccept.read, andThen_chan hc.1, andThen_pk h2, andThen_pk h3, andThen_pk h4, andThen_adaptor h5, andThen_sig h6, andThen_sigs h7, andThen_pk h8, andThen_pk h9, andThen_pk h10]
       exact andThen_error h,
     fun m l e hm h => by
       obtain ⟨hc, h2, h3, h4, h5, h6, h7, h8, h9, h10, h11, h12, h13, h14, h15, h16, h17, h18⟩ := hm
       simp only [SubChannelAccept.read, andThen_chan hc.1, andThen_pk h2, andThen_pk h3, andThen_pk h4, andThen_adaptor h5, andThen_sig h6, andThen_sigs h7, andThen_pk h8, andThen_pk h9, andThen_pk h10, andThen_pk h11]
       exact andThen_error h,
     fun m l e hm h => by
       obtain ⟨hc, h2, h3, h4, h5, h6, h7, h8, h9, h10, h11, h12, h13, h14, h15, h16, h17, h18⟩ := hm
       simp only [SubChannelAccept.read, andThen_chan hc.1, andThen_pk h2, andThen_pk h3, andThen_pk h4, andThen_adaptor h5, andThen_sig h6, andThen_sigs h7, andThen_pk h8, andThen_pk h9, andThen_pk h10, andThen_pk h11, andThen_cet h12]
       exact andThen_error h,
     fun m l e hm h => by
       obtain ⟨hc, h2, h3, h4, h5, h6, h7, h8, h9, h10, h11, h12, h13, h14, h15, h16, h17, h18⟩ := hm
       simp only [SubChannelAccept.read, andThen_chan hc.1, andThen_pk h2, andThen_pk h3, andThen_pk h4, andThen_adaptor h5, andThen_sig h6, andThen_sigs h7, andThen_pk h8, andThen_pk h9, andThen_pk h10, andThen_pk h11, andThen_cet h12, andThen_adaptor h13]
       exact andThen_error h,
     fun m l e hm h => by
       obtain ⟨hc, h2, h3, h4, h5, h6, h7, h8, h9, h10, h11, h12, h13, h14, h15, h16, h17, h18⟩ := hm
       simp only [SubChannelAccept.read, andThen_chan hc.1, andThen_pk h2, andThen_pk h3, andThen_pk h4, andThen_adaptor h5, andThen_sig h6, andThen_sigs h7, andThen_pk h8, andThen_pk h9, andThen_pk h10, andThen_pk h11, andThen_cet h12, andThen_adaptor h13, andThen_sig h14]
       exact andThen_error h,
     fun m l e hm h => by
       obtain ⟨hc, h2, h3, h4, h5, h6, h7, h8, h9, h10, h11, h12, h13, h14, h15, h16, h17, h18⟩ := hm
       simp only [SubChannelAccept.read, andThen_chan hc.1, andThen_pk h2, andThen_pk h3, andThen_pk h4, andThen_adaptor h5, andThen_sig h6, andThen_sigs h7, andThen_pk h8, andThen_pk h9, andThen_pk h10, andThen_pk h11, andThen_cet h12, andThen_adaptor h13, andThen_sig h14, andThen_sig h15]
       exact andThen_error h,
     fun m l e hm h => by
       obtain ⟨hc, h2, h3, h4, h5, h6, h7, h8, h9, h10, h11, h12, h13, h14, h15, h16, h17, h18⟩ := hm
       simp only [SubChannelAccept.read, andThen_chan hc.1, andThen_pk h2, andThen_pk h3, andThen_pk h4, andThen_adaptor h5, andThen_sig h6, andThen_sigs h7, andThen_pk h8, andThen_pk h9, andThen_pk h10, andThen_pk h11, andThen_cet h12, andThen_adaptor h13, andThen_sig h14, andThen_sig h15, andThen_pk h16]
       exact andThen_error h,
     fun m l e hm h => by
       obtain ⟨hc, h2, h3, h4, h5, h6, h7, h8, h9, h10, h11, h12, h13, h14, h15, h16, h17, h18⟩ := hm
       simp only [SubChannelAccept.read, andThen_chan hc.1, andThen_pk h2, andThen_pk h3, andThen_pk h4, andThen_adaptor h5, andThen_sig h6, andThen_sigs h7, andThen_pk h8, andThen_pk h9, andThen_pk h10, andThen_pk h11, andThen_cet h12, andThen_adaptor h13, andThen_sig h14, andThen_sig h15, andThen_pk h16, andThen_script h17]
       exact andThen_error h⟩,
   ⟨fun m _ => rfl,
     fun m rest hm => by
       have hx := confirm_read_rt hm rest
       simpa only [SubChannelConfirm.write, List.append_assoc] using hx,
     fun l e h => andThen_error h,
     fun m l e hm h => by
       obtain ⟨hc, h2, h3, h4, h5, h6, h7, h8, h9, h10⟩ := hm
       simp only [SubChannelConfirm.read, andThen_chan hc.1]
       exact andThen_error h,
     fun m l e hm h => by
       obtain ⟨hc, h2, h3, h4, h5, h6, h7, h8, h9, h10⟩ := hm
       simp only [SubChannelConfirm.read, andThen_chan hc.1, andThen_sec h2]
       exact andThen_error h,
     fun m l e hm h => by
       obtain ⟨hc, h2, h3, h4, h5, h6, h7, h8, h9, h10⟩ := hm
       simp only [SubChannelConfirm.read, andThen_chan hc.1, andThen_sec h2, andThen_pk h3]
       exact andThen_error h,
     fun m l e hm h => by
       obtain ⟨hc, h2, h3, h4, h5, h6, h7, h8, h9, h10⟩ := hm
       simp only [SubChannelConfirm.read, andThen_chan hc.1, andThen_sec h2, andThen_pk h3, andThen_adaptor h4]
       exact andThen_error h,
     fun m l e hm h => by
       obtain ⟨hc, h2, h3, h4, h5, h6, h7, h8, h9, h10⟩ := hm
       simp only [SubChannelConfirm.read, andThen_chan hc.1, andThen_sec h2, andThen_pk h3, andThen_adaptor h4, andThen_sig h5]
       exact andThen_error h,
     fun m l e hm h => by
       obtain ⟨hc, h2, h3, h4, h5, h6, h7, h8, h9, h10⟩ := hm
       simp only [SubChannelConfirm.read, andThen_chan hc.1, andThen_sec h2, andThen_pk h3, andThen_adaptor h4, andThen_sig h5, andThen_sigs h6]
       exact andThen_error h,
     fun m l e hm h => by
       obtain ⟨hc, h2, h3, h4, h5, h6, h7, h8, h9, h10⟩ := hm
       simp only [SubChannelConfirm.read, andThen_chan hc.1, andThen_sec h2, andThen_pk h3, andThen_adaptor h4, andThen_sig h5, andThen_sigs h6, andThen_cet h7]
       exact andThen_error h,
     fun m l e hm h => by
       obtain ⟨hc, h2, h3, h4, h5, h6, h7, h8, h9, h10⟩ := hm
       simp only [SubChannelConfirm.read, andThen_chan hc.1, andThen_sec h2, andThen_pk h3, andThen_adaptor h4, andThen_sig h5, andThen_sigs h6, andThen_cet h7, andThen_adaptor h8]
       exact andThen_error h,
     fun m l e hm h => by
       obtain ⟨hc, h2, h3, h4, h5, h6, h7, h8, h9, h10⟩ := hm
       simp only [SubChannelConfirm.read, andThen_chan hc.1, andThen_sec h2, andThen_pk h3, andThen_adaptor h4, andThen_sig h5, andThen_sigs h6, andThen_cet h7, andThen_adaptor h8, andThen_sig h9]
       exact andThen_error h⟩,
   ⟨fun m _ => rfl,
     fun m rest hm => by
       have hx := finalize_read_rt hm rest
       simpa only [SubChannelFinalize.write, List.append_assoc] using hx,
     fun l e h => andThen_error h,
     fun m l e hm h => by
       obtain ⟨hc, h2, h3⟩ := hm
       simp only [SubChannelFinalize.read, andThen_chan hc.1]
       exact andThen_error h,
     fun m l e hm h => by
       obtain ⟨hc, h2, h3⟩ := hm
       simp only [SubChannelFinalize.read, andThen_chan hc.1, andThen_sec h2]
       exact andThen_error h⟩,
   ⟨fun m _ => rfl,
     fun m rest hm => by
       have hx := closeOffer_read_rt hm rest
       simpa only [SubChannelCloseOffer.write, List.append_assoc] using hx,
     fun l e h => andThen_error h,
     fun m l e hm h => by
       obtain ⟨hc, h2⟩ := hm
       simp only [SubChannelCloseOffer.read, andThen_chan hc.1]
       exact andThen_error h⟩,
   ⟨fun m _ => rfl,
     fun m rest hm => by
       have hx := closeAccept_read_rt hm rest
       simpa only [SubChannelCloseAccept.write, List.append_assoc] using hx,
     fun l e h => andThen_error h,
     fun m l e hm h => by
       obtain ⟨hc, h2, h3⟩ := hm
       simp only [SubChannelCloseAccept.read, andThen_chan hc.1]
       exact andThen_error h,
     fun m l e hm h => by
       obtain ⟨hc, h2, h3⟩ := hm
       simp only [SubChannelCloseAccept.read, andThen_chan hc.1, andThen_sig h2]
       exact andThen_error h⟩,
   ⟨fun m _ => rfl,
     fun m rest hm => by
       have hx := closeConfirm_read_rt hm rest
       simpa only [SubChannelCloseConfirm.write, List.append_assoc] using hx,
     fun l e h => andThen_error h,
     fun m l e hm h => by
       obtain ⟨hc, h2, h3, h4, h5, h6⟩ := hm
       simp only [SubChannelCloseConfirm.read, andThen_chan hc.1]
       exact andThen_error h,
     fun m l e hm h => by
       obtain ⟨hc, h2, h3, h4, h5, h6⟩ := hm
       simp only [SubChannelCloseConfirm.read, andThen_chan hc.1, andThen_sig h2]
       exact andThen_error h,
     fun m l e hm h => by
       obtain ⟨hc, h2, h3, h4, h5, h6⟩ := hm
       simp only [SubChannelCloseConfirm.read, andThen_chan hc.1, andThen_sig h2, andThen_sigs h3]
       exact andThen_error h,
     fun m l e hm h => by
       obtain ⟨hc, h2, h3, h4, h5, h6⟩ := hm
       simp only [SubChannelCloseConfirm.read, andThen_chan hc.1, andThen_sig h2, andThen_sigs h3, andThen_sec h4]
       exact andThen_error h,
     fun m l e hm h => by
       obtain ⟨hc, h2, h3, h4, h5, h6⟩ := hm
       simp only [SubChannelCloseConfirm.read, andThen_chan hc.1, andThen_sig h2, andThen_sigs h3, andThen_sec h4, andThen_sec h5]
       exact andThen_error h⟩,
   ⟨fun m _ => rfl,
     fun m rest hm => by
       have hx := closeFinalize_read_rt hm rest
       simpa only [SubChannelCloseFinalize.write, List.append_assoc] using hx,
     fun l e h => andThen_error h,
     fun m l e hm h => by
       obtain ⟨hc, h2, h3, h4⟩ := hm
       simp only [SubChannelCloseFinalize.read, andThen_chan hc.1]
       exact andThen_error h,
     fun m l e hm h => by
       obtain ⟨hc, h2, h3, h4⟩ := hm
       simp only [SubChannelCloseFinalize.read, andThen_chan hc.1, andThen_sec h2]
       exact andThen_error h,
     fun m l e hm h => by
       obtain ⟨hc, h2, h3, h4⟩ := hm
       simp only [SubChannelCloseFinalize.read, andThen_chan hc.1, andThen_sec h2, andThen_sec h3]
       exact andThen_error h⟩,
   ⟨fun m _ => rfl,
     fun m rest hm => by
       have hx := closeReject_read_rt hm rest
       simpa only [SubChannelCloseReject.write, List.append_assoc] using hx,
     fun l e h => andThen_error h⟩⟩

/-- Witness for C2: feeding a concrete `SubChannelCloseOffer` decoder a
valid channel identifier followed by a one-byte balance field makes the
balance decoder fail with a truncation error, and the message decoder
returns exactly that error. -/
theorem C2_field_order_first_failure_witness :
    SubChannelCloseOffer.read (closeOfferEx.channel_id ++ ([7] : Bytes)) =
      .error .shortRead :=
  C2_field_order_first_failure.2.2.2.2.1.2.2.2 closeOfferEx [7] .shortRead
    closeOfferEx_wf rfl
